import Mathlib

/-!
Shallow embedding of the WirteFlowCloud book-writing engine.

The embedded modules are:
  * `src/bookwriter/generators/character_updater.py` (`CharacterUpdater`)
  * `src/bookwriter/generators/outline_generator.py` (`OutlineGenerator`)
  * `src/bookwriter/generators/page_generator.py` (`PageGenerator`)
  * `src/bookwriter/semantic_memory.py` (`SemanticMemory._chunk_text`)
  * `src/bookwriter/core.py` (`BookWriter`: `_call_groq`, `generate_page`,
    `_complete_chapter`, `_update_character_states`, `load_memory`, ...)

Modelling conventions:
  * Python dicts whose keys are strings are association lists
    (`List (String × JValue)` or `List (String × String)`); keys are unique in
    every dict the code builds, insertion order is preserved, and lookups take
    the first match, which coincides with Python dict semantics.
  * JSON numbers are modelled as integers (`Int`); no claim in scope depends on
    non-integral JSON numbers.
  * Calls to external services (the Groq chat API, `json.loads`, the Ollama
    embedding backend, the FAISS index, the file system) are modelled as
    explicit inputs: each embedded function receives the outcome of the
    external call it makes (for example the raw response text, or the already
    parsed JSON as an `Option JValue`, `none` meaning `json.JSONDecodeError`).
  * Python exceptions are modelled with `Except PyErr`; functions that the
    source lets exceptions escape from return `Except`, while `try/except`
    blocks in the source are modelled by handling the corresponding error
    value.
-/

/-- Python exception classes that the embedded code can raise or catch. -/
inductive PyErr where
  | typeError
  | attributeError
  | keyError
  | valueError
  deriving DecidableEq, Repr

/-- JSON values, as produced by `json.loads`.  Numbers are modelled as
integers; see the module docstring. -/
inductive JValue where
  | jnull
  | jbool (b : Bool)
  | jnum (n : Int)
  | jstr (s : String)
  | jarr (xs : List JValue)
  | jobj (fields : List (String × JValue))

/-- Characters Python's `str.strip()` removes (ASCII whitespace; the further
Unicode whitespace Python also strips does not occur in any input considered
here). -/
def isPyWs (c : Char) : Bool :=
  c = ' ' || c = '\t' || c = '\n' || c = '\r' || c = '\x0b' || c = '\x0c'

/-- Python `str.strip()`: drop leading and trailing whitespace. -/
def pyStrip (s : String) : String :=
  ⟨((s.data.dropWhile isPyWs).reverse.dropWhile isPyWs).reverse⟩

/-- Substring containment over character lists (an empty needle is contained
everywhere, as in Python). -/
def containsSub (needle : List Char) : List Char → Bool
  | [] => needle.isEmpty
  | c :: rest => needle.isPrefixOf (c :: rest) || containsSub needle rest

/-- Python `needle in hay` for strings: substring test. -/
def pyInStr (needle hay : String) : Bool :=
  containsSub needle.data hay.data

/-- Python `s[:n]` for a string: the first `n` characters. -/
def pySlice (s : String) (n : Nat) : String :=
  ⟨s.data.take n⟩

/-- Python `hay.split(sep)` for a non-empty separator, over character lists:
left-to-right, non-overlapping; `cur` is the reversed piece being built and
`fuel` (at least the remaining length) makes the recursion structural. -/
def splitSubAux (sep : List Char) : Nat → List Char → List Char → List (List Char)
  | 0, hay, cur => [(cur.reverse ++ hay)]
  | fuel + 1, hay, cur =>
    match hay with
    | [] => [cur.reverse]
    | c :: rest =>
      if sep.isPrefixOf (c :: rest) then
        cur.reverse :: splitSubAux sep fuel ((c :: rest).drop sep.length) []
      else
        splitSubAux sep fuel rest (c :: cur)

/-- Python `hay.split(sep)` for a non-empty separator string. -/
def pySplitOn (hay sep : String) : List String :=
  (splitSubAux sep.data hay.data.length hay.data []).map (fun l => ⟨l⟩)

/-- Python `hay.replace(pat, repl)` for a non-empty pattern, over character
lists: replace every non-overlapping occurrence left to right. -/
def replaceSubAux (pat repl : List Char) : Nat → List Char → List Char
  | 0, hay => hay
  | fuel + 1, hay =>
    match hay with
    | [] => []
    | c :: rest =>
      if pat.isPrefixOf (c :: rest) then
        repl ++ replaceSubAux pat repl fuel ((c :: rest).drop pat.length)
      else
        c :: replaceSubAux pat repl fuel rest

/-- Python `hay.replace(pat, repl)` for a non-empty pattern string. -/
def pyReplace (hay pat repl : String) : String :=
  ⟨replaceSubAux pat.data repl.data hay.data.length hay.data⟩

/-- Python `s.startswith(pre)`. -/
def pyStartsWith (s pre : String) : Bool :=
  pre.data.isPrefixOf s.data

/-- Python `sep.join(pieces)`. -/
def joinWith (sep : String) : List String → String
  | [] => ""
  | [s] => s
  | s :: rest => s ++ sep ++ joinWith sep rest

/-- Splitting a character list at every occurrence of one character
(Python `s.split(c)` for a single-character separator). -/
def splitOnChar (c : Char) : List Char → List (List Char)
  | [] => [[]]
  | x :: rest =>
    if x = c then
      [] :: splitOnChar c rest
    else
      match splitOnChar c rest with
      | [] => [[x]]
      | p :: ps => (x :: p) :: ps

/-- Python `needle in container` where `needle` is a `str`.  Membership in a
dict checks keys, in a string it is a substring test, in a list it compares
against the elements (a string equals only an equal string); on other values
it raises `TypeError`. -/
def pyIn (needle : String) : JValue → Except PyErr Bool
  | .jobj fields => .ok (fields.any (fun p => p.1 == needle))
  | .jstr s => .ok (pyInStr needle s)
  | .jarr xs => .ok (xs.any (fun v => match v with
      | .jstr s => s == needle
      | _ => false))
  | _ => .error .typeError

/-- Python `container[key]` with a `str` key: dict lookup (`KeyError` when
missing); `TypeError` on strings, lists and all other values. -/
def pyGetItem (container : JValue) (key : String) : Except PyErr JValue :=
  match container with
  | .jobj fields =>
    match fields.lookup key with
    | some v => .ok v
    | none => .error .keyError
  | _ => .error .typeError

/-- Updating a key of an association list the way Python dict assignment does:
an existing key keeps its position, a new key is appended. -/
def setField (fields : List (String × JValue)) (key : String) (v : JValue) :
    List (String × JValue) :=
  if fields.any (fun p => p.1 == key) then
    fields.map (fun p => if p.1 == key then (p.1, v) else p)
  else
    fields ++ [(key, v)]

/-- Python `container[key] = v` with a `str` key: only dicts support item
assignment; everything else raises `TypeError`. -/
def pySetItem (container : JValue) (key : String) (v : JValue) :
    Except PyErr JValue :=
  match container with
  | .jobj fields => .ok (.jobj (setField fields key v))
  | _ => .error .typeError

/-- Python truthiness of a JSON value (`if not updates: ...`). -/
def pyFalsy : JValue → Bool
  | .jnull => true
  | .jbool b => !b
  | .jnum n => n == 0
  | .jstr s => s == ""
  | .jarr xs => xs.isEmpty
  | .jobj fs => fs.isEmpty

/-- Python `v <= 0` for a JSON value: defined for numbers and bools
(`True == 1`, `False == 0`); `TypeError` otherwise. -/
def pyLeZero : JValue → Except PyErr Bool
  | .jnum n => .ok (decide (n ≤ 0))
  | .jbool b => .ok (!b)
  | _ => .error .typeError

/-- Python `v == k` for a JSON value and an `int` (used by
`chapter['number'] != i + 1`): numbers compare by value, bools count as 0/1,
every other value is unequal to an int. -/
def pyEqInt (v : JValue) (k : Int) : Bool :=
  match v with
  | .jnum n => n == k
  | .jbool b => (if b then (1 : Int) else 0) == k
  | _ => false

namespace CharacterUpdater

/-- Embedding of `CharacterUpdater._parse_update_response`
(`character_updater.py:76-108`) after the call to `json.loads`: the argument
is the parse result of the cleaned response (`none` = `json.JSONDecodeError`,
caught and turned into `None`).  When the parsed value has a
`character_updates` entry that entry is returned, otherwise the whole value;
the trailing `except Exception` turns any error from the membership test or
the subscript into `None`. -/
def parseUpdateResponse (parsed : Option JValue) : Option JValue :=
  match parsed with
  | none => none
  | some data =>
    match pyIn "character_updates" data with
    | .error _ => none
    | .ok true =>
      match pyGetItem data "character_updates" with
      | .ok v => some v
      | .error _ => none
    | .ok false => some data

/-- The body of the `for name in expected_names` loop of
`CharacterUpdater._validate_updates` (`character_updater.py:128-145`) for one
name: when the name is a key of `updates`, strip the proposed state
(`AttributeError` when the value is not a string), accept it when longer than
five characters (truncating to 197 characters plus an ellipsis when longer
than 200), and otherwise fall back to the current state (default
string when the name is unknown). -/
def validateOne (updates : JValue) (name : String)
    (currentStates : List (String × String)) : Except PyErr String := do
  let contains ← pyIn name updates
  if contains then
    let v ← pyGetItem updates name
    match v with
    | .jstr raw =>
      let newState := pyStrip raw
      if newState != "" && newState.length > 5 then
        if newState.length > 200 then
          pure (pySlice newState 197 ++ "...")
        else
          pure newState
      else
        pure ((currentStates.lookup name).getD "Estado desconocido")
    | _ => .error .attributeError
  else
    pure ((currentStates.lookup name).getD "Estado desconocido")

/-- Embedding of `CharacterUpdater._validate_updates`
(`character_updater.py:110-147`): the validated dict built by iterating over
`expected_names` in order; the first exception a loop body raises escapes,
leaving the remaining names unprocessed, exactly as in Python. -/
def validateUpdates (updates : JValue) (expectedNames : List String)
    (currentStates : List (String × String)) :
    Except PyErr (List (String × String)) :=
  match expectedNames with
  | [] => .ok []
  | name :: rest => do
    let st ← validateOne updates name currentStates
    let r ← validateUpdates updates rest currentStates
    .ok ((name, st) :: r)

/-- Embedding of `CharacterUpdater.update_after_chapter`
(`character_updater.py:31-70`).  `parsedResponse` is the `json.loads` result
of the cleaned model response (the prompt construction and the API round trip
do not influence the returned mapping).  An empty name list short-circuits to
an empty dict before any API call; a response that fails to parse, or parses
to a falsy value, leaves all current states unchanged. -/
def updateAfterChapter (parsedResponse : Option JValue)
    (characterNames : List String) (currentStates : List (String × String)) :
    Except PyErr (List (String × String)) :=
  if characterNames.isEmpty then
    .ok []
  else
    match parseUpdateResponse parsedResponse with
    | none => .ok currentStates
    | some updates =>
      if pyFalsy updates then
        .ok currentStates
      else
        validateUpdates updates characterNames currentStates

end CharacterUpdater

namespace SemanticMemory

/-- Auxiliary recursion for Python `str.split()` (no separator argument):
`cur` is the reversed current word. -/
def splitWsAux : List Char → List Char → List String
  | [], cur => if cur.isEmpty then [] else [⟨cur.reverse⟩]
  | c :: rest, cur =>
    if isPyWs c then
      if cur.isEmpty then splitWsAux rest []
      else ⟨cur.reverse⟩ :: splitWsAux rest []
    else
      splitWsAux rest (c :: cur)

/-- Python `text.split()`: split on runs of whitespace, dropping empty
pieces. -/
def pySplitWs (s : String) : List String :=
  splitWsAux s.data []

/-- Python `" ".join(words)`. -/
def sjoin (words : List String) : String :=
  joinWith " " words

/-- Python `range(start, stop, step)` for a positive `step` (the only shape
`_chunk_text` uses: `range(0, len(words), chunk_size - overlap)` with the
default step 200). -/
def pyRange (start stop step : Nat) : List Nat :=
  (List.range ((stop - start + step - 1) / step)).map (fun k => start + k * step)

/-- Embedding of `SemanticMemory._chunk_text` (`semantic_memory.py:50-56`):
split the text into words and emit the windows
`words[i : i + chunk_size]` for `i in range(0, len(words), chunk_size -
overlap)`, each joined back with single spaces. -/
def chunkText (text : String) (chunkSize : Nat := 250) (overlap : Nat := 50) :
    List String :=
  let words := pySplitWs text
  (pyRange 0 words.length (chunkSize - overlap)).map
    (fun i => sjoin ((words.drop i).take chunkSize))

/-- The word-level windows underlying `chunkText`; `chunkText` maps `sjoin`
over them. -/
def chunkWordLists (words : List String) (chunkSize : Nat := 250)
    (overlap : Nat := 50) : List (List String) :=
  (pyRange 0 words.length (chunkSize - overlap)).map
    (fun i => (words.drop i).take chunkSize)

theorem chunkText_eq_map_sjoin (text : String) (chunkSize overlap : Nat) :
    chunkText text chunkSize overlap =
      (chunkWordLists (pySplitWs text) chunkSize overlap).map sjoin := by
  simp [chunkText, chunkWordLists, List.map_map]

end SemanticMemory

namespace OutlineGenerator

/-- The success/error dict returned by `OutlineGenerator.generate`. -/
inductive GenResult where
  | errorResult (message : String)
  | successResult (data : JValue) (message : String)

/-- Embedding of `PromptTemplates.error_json_parse` (`templates.py:397-406`);
quotes elided from none of it (the template has none). -/
def errorJsonParse (rawResponse : String) : String :=
  "❌ Error al procesar la respuesta del modelo.\nLa respuesta no es un JSON válido.\n\n**Primeros 500 caracteres de la respuesta:**\n"
    ++ pySlice rawResponse 500
    ++ "...\n\nPor favor, intenta regenerar el outline.\n"

/-- The `for section in required_sections` loop of
`OutlineGenerator._validate_outline` (`outline_generator.py:140-147`): the
first missing section, if any.  The membership test can raise `TypeError`
when the parsed response is not a container. -/
def checkSections (data : JValue) : List String → Except PyErr (Option String)
  | [] => .ok none
  | sec :: rest => do
    let present ← pyIn sec data
    if present then checkSections data rest else .ok (some sec)

/-- The per-chapter validation loop of `OutlineGenerator._validate_outline`
(`outline_generator.py:180-206`), started at index `i`: each chapter must be a
dict containing `number`, `title`, `summary`, `key_events` and
`pages_estimate`; its number must equal its 1-indexed position and its
`key_events` must be a non-empty list. -/
def checkChapters : List JValue → Nat → Bool × String
  | [], _ => (true, "Outline válido")
  | ch :: rest, i =>
    match ch with
    | .jobj fields =>
      match ["number", "title", "summary", "key_events", "pages_estimate"].find?
          (fun k => !(fields.any (fun p => p.1 == k))) with
      | some k =>
        (false, "Capítulo " ++ toString (i + 1) ++ " debe contener " ++ k)
      | none =>
        if !(pyEqInt ((fields.lookup "number").getD .jnull) ((i : Int) + 1)) then
          (false, "Capítulo " ++ toString (i + 1) ++ " tiene número incorrecto")
        else
          match (fields.lookup "key_events").getD .jnull with
          | .jarr evs =>
            if evs.isEmpty then
              (false, "Capítulo " ++ toString (i + 1) ++ " debe tener al menos un key_event")
            else
              checkChapters rest (i + 1)
          | _ => (false, "Capítulo " ++ toString (i + 1) ++ " debe tener al menos un key_event")
    | _ => (false, "Capítulo " ++ toString (i + 1) ++ " debe ser un diccionario")

/-- Embedding of `OutlineGenerator._validate_outline`
(`outline_generator.py:127-208`).  Returns the `{'valid': ..., 'message': ...}`
pair; subscripted or membership-tested values of unexpected type make the
corresponding Python expression raise, which is modelled by the `Except`
error. -/
def validateOutline (data : JValue) (expectedChapters : Int) :
    Except PyErr (Bool × String) := do
  match ← checkSections data ["world", "characters", "plot", "style", "consistency_rules"] with
  | some sec => .ok (false, "Falta la sección requerida: " ++ sec)
  | none =>
    let world ← pyGetItem data "world"
    match world with
    | .jobj _ => do
      match ← checkSections world ["setting", "time_period"] with
      | some k => .ok (false, "world debe contener " ++ k)
      | none =>
        let characters ← pyGetItem data "characters"
        match characters with
        | .jobj cf =>
          if cf.isEmpty then
            .ok (false, "Debe haber al menos un personaje")
          else do
            let plot ← pyGetItem data "plot"
            let hasOutline ← pyIn "outline" plot
            if !hasOutline then
              .ok (false, "plot debe contener outline")
            else do
              let outline ← pyGetItem plot "outline"
              match outline with
              | .jarr chs =>
                if (chs.length : Int) != expectedChapters then
                  .ok (false, "Se esperaban " ++ toString expectedChapters
                    ++ " capítulos, se recibieron " ++ toString chs.length)
                else
                  .ok (checkChapters chs 0)
              | _ => .ok (false, "plot.outline debe ser una lista")
        | _ => .ok (false, "characters debe ser un diccionario")
    | _ => .ok (false, "world debe ser un diccionario")

/-- The `current_state` pass of `OutlineGenerator._post_process_outline`
(`outline_generator.py:222-225`): every character dict that lacks
`current_state` gets the initial-state string; a non-dict character value
raises `TypeError` on assignment (`pySetItem`) unless the membership test
already succeeds on it. -/
def postProcessCharacters :
    List (String × JValue) → Except PyErr (List (String × JValue))
  | [] => .ok []
  | (name, cd) :: rest => do
    let present ← pyIn "current_state" cd
    if present then do
      let rest2 ← postProcessCharacters rest
      .ok ((name, cd) :: rest2)
    else do
      let cd2 ← pySetItem cd "current_state" (.jstr "Al inicio de la historia.")
      let rest2 ← postProcessCharacters rest
      .ok ((name, cd2) :: rest2)

/-- The `pages_estimate` pass of `OutlineGenerator._post_process_outline`
(`outline_generator.py:227-230`) for one chapter: a missing or non-positive
estimate becomes 12 (`<= 0` on a non-numeric value raises `TypeError`). -/
def pagesEstimateFix (ch : JValue) : Except PyErr JValue := do
  let present ← pyIn "pages_estimate" ch
  if !present then
    pySetItem ch "pages_estimate" (.jnum 12)
  else do
    let v ← pyGetItem ch "pages_estimate"
    let le0 ← pyLeZero v
    if le0 then pySetItem ch "pages_estimate" (.jnum 12) else pure ch

/-- The `character_focus` pass of `OutlineGenerator._post_process_outline`
(`outline_generator.py:232-235`) for one chapter: a missing focus list becomes
the empty list. -/
def characterFocusFix (ch : JValue) : Except PyErr JValue := do
  let present ← pyIn "character_focus" ch
  if present then pure ch else pySetItem ch "character_focus" (.jarr [])

/-- One `if key not in v: v[key] = dflt` step (the `premise`/`themes`
defaults of `_post_process_outline`, `outline_generator.py:237-242`). -/
def ensureKey (v : JValue) (key : String) (dflt : JValue) :
    Except PyErr JValue := do
  let present ← pyIn key v
  if present then pure v else pySetItem v key dflt

/-- A `for` loop over a Python list that may raise: apply `f` to each element
in order, the first exception escaping with the remaining elements
unprocessed. -/
def mapExcept (f : JValue → Except PyErr JValue) :
    List JValue → Except PyErr (List JValue)
  | [] => .ok []
  | x :: rest => do
    let y ← f x
    let ys ← mapExcept f rest
    .ok (y :: ys)

/-- Embedding of `OutlineGenerator._post_process_outline`
(`outline_generator.py:210-244`).  The function is only called on data that
passed `_validate_outline`, so `characters` is a dict and `plot.outline` a
list there; the `.error` fallbacks for other shapes correspond to the
`AttributeError`/`TypeError` Python would raise on them. -/
def postProcessOutline (data : JValue) : Except PyErr JValue := do
  let chars ← pyGetItem data "characters"
  match chars with
  | .jobj cf => do
    let cf2 ← postProcessCharacters cf
    let data1 ← pySetItem data "characters" (.jobj cf2)
    let plot ← pyGetItem data1 "plot"
    let outline ← pyGetItem plot "outline"
    match outline with
    | .jarr chs => do
      let chs1 ← mapExcept pagesEstimateFix chs
      let chs2 ← mapExcept characterFocusFix chs1
      let plot1 ← pySetItem plot "outline" (.jarr chs2)
      let plot2 ← ensureKey plot1 "premise" (.jstr "")
      let plot3 ← ensureKey plot2 "themes" (.jarr [])
      pySetItem data1 "plot" plot3
    | _ => .error .typeError
  | _ => .error .attributeError

/-- Embedding of `OutlineGenerator.generate` (`outline_generator.py:36-90`).
`parsedResponse` is the result of `json.loads` on the cleaned raw response
(`none` = parse failure); `rawResponse` is only used for the parse-error
message. -/
def generate (parsedResponse : Option JValue) (rawResponse : String)
    (numChapters : Int) : Except PyErr GenResult :=
  match parsedResponse with
  | none => .ok (.errorResult (errorJsonParse rawResponse))
  | some data => do
    let (valid, msg) ← validateOutline data numChapters
    if !valid then
      .ok (.errorResult ("❌ Outline generado con estructura inválida: " ++ msg))
    else do
      let data2 ← postProcessOutline data
      .ok (.successResult data2 "✅ Outline, mundo y personajes generados con éxito.")

end OutlineGenerator

namespace PageGenerator

/-- Embedding of `PageGenerator._post_process_content`
(`page_generator.py:166-197`): strip, remove markdown code fences, drop lines
that look like chapter headings, and normalise paragraph whitespace. -/
def postProcessContent (content : String) : String :=
  let c1 := pyStrip content
  let c2 := pyReplace (pyReplace c1 "```markdown" "") "```" ""
  let kept := (pySplitOn c2 "\n").filter (fun line =>
    !(pyStartsWith (pyStrip line) "##" || pyStartsWith (pyStrip line) "# Capítulo"))
  let c3 := pyStrip (joinWith "\n" kept)
  joinWith "\n\n"
    (((pySplitOn c3 "\n\n").map pyStrip).filter (fun p => p != ""))

/-- Embedding of `PageGenerator.generate` (`page_generator.py:35-80`)
restricted to what it does with the API response `content`: the prompt
assembly feeds the external call and does not influence the returned pair.
The call fails when the response contains the error marker `"Error"` or is
blank; otherwise the post-processed content is returned. -/
def generate (content : String) : Bool × String :=
  if pyInStr "Error" content || pyStrip content == "" then
    (false, content)
  else
    (true, postProcessContent content)

end PageGenerator

namespace BookWriter

/-- One outline entry as `generate_page` reads it from
`memory['plot']['outline']`.  Each field is `Option`al because the code reads
them with `dict.get` and a default; the field types are the ones every outline
the code itself commits to memory has (validated and post-processed JSON). -/
structure ChapterInfo where
  number : Option Int
  title : Option String
  summary : Option String
  pages_estimate : Option Int
  character_focus : Option (List String)
  deriving DecidableEq, Repr

/-- The unreachable default handed to `List.getD` where the source indexes
`outline[current_chapter_index]` under a bounds guard. -/
def defaultChapterInfo : ChapterInfo := ⟨none, none, none, none, none⟩

/-- One entry of `memory['characters']`, restricted to the fields
`generate_page` and its callees read or write. -/
structure CharInfo where
  description : Option String
  current_state : Option String
  deriving DecidableEq, Repr

/-- The slice of a `BookWriter` project that `generate_page` can read or
mutate: `memory['writing_progress']`, `memory['plot']['outline']`,
`memory['characters']`, `memory['chapters_summary']`, and the manuscript file
`book.md` (`none` = the file does not exist yet).  The semantic store
(FAISS index and chunk map) is external best-effort state not tracked here;
the only way it can influence these fields is through an exception, which the
source catches (see `processCompletedChapter`). -/
structure BWState where
  currentChapterIndex : Nat
  currentPageInChapter : Nat
  outline : List ChapterInfo
  characters : List (String × CharInfo)
  chaptersSummary : List (Int × String × String)
  book : Option String
  deriving DecidableEq, Repr

/-- The outcomes of the external calls one `generate_page` invocation makes:
the Groq response for the page prompt, the `json.loads` result of the cleaned
character-update response (`none` = parse error; only consulted on chapter
completion), and whether the semantic-indexing body (manuscript read, chapter
extraction, embedding, FAISS insert) raises. -/
structure PageEnv where
  pageApiContent : String
  charUpdateParsed : Option JValue
  indexingOutcome : Except PyErr Unit

/-- The result of one `generate_page` call: the returned
`(status_message, content)` pair, or the Python exception that escaped. -/
inductive GPResult where
  | ok (status text : String)
  | raised (e : PyErr)
  deriving DecidableEq, Repr

/-- Python `f"{chapter_info.get('number', 'N/A')}"`. -/
def fmtOptInt : Option Int → String
  | some n => toString n
  | none => "N/A"

/-- The chapter-title marker `_append_page_to_book` writes before the first
page of a chapter (`core.py:459-461`). -/
def chapterHeader (c : ChapterInfo) : String :=
  "\n\n## Capítulo " ++ fmtOptInt c.number ++ ": " ++ c.title.getD "Sin Título" ++ "\n\n"

/-- Embedding of `BookWriter._append_page_to_book` (`core.py:453-469`):
append-mode open creates the file when missing; the header is written exactly
when `page_number == 1`, then the content plus a newline. -/
def appendPageToBook (c : ChapterInfo) (pageNumber : Nat) (content : String)
    (s : BWState) : BWState :=
  let pre := s.book.getD ""
  let withHeader := if pageNumber = 1 then pre ++ chapterHeader c else pre
  { s with book := some (withHeader ++ content ++ "\n") }

/-- The chapter the writing cursor points at,
`outline[current_chapter_index]`; only meaningful under the bounds guard of
`generate_page`. -/
def currentChapterInfo (s : BWState) : ChapterInfo :=
  s.outline.getD s.currentChapterIndex defaultChapterInfo

/-- The `chapters_summary` entry `_complete_chapter` appends
(`core.py:483-488`). -/
def chapterSummaryEntry (c : ChapterInfo) : Int × String × String :=
  (c.number.getD 0, c.title.getD "", c.summary.getD "")

/-- Embedding of `BookWriter._process_completed_chapter` (`core.py:496-523`).
Its whole body (manuscript read, header regex search, and
`semantic_memory.add_chapter`) sits inside `try/except Exception`, only logs
on failure, and touches none of the tracked fields, so the tracked state is
returned unchanged whether or not the body raises. -/
def processCompletedChapter (indexingOutcome : Except PyErr Unit)
    (s : BWState) : BWState :=
  match indexingOutcome with
  | .ok _ => s
  | .error _ => s

/-- Embedding of `BookWriter._update_character_states` (`core.py:525-551`).
Builds the name list and current-state dict from `memory['characters']`,
calls `CharacterUpdater.update_after_chapter` (whose exceptions are NOT
caught here) and writes the returned states back.  On the error path nothing
has been written back yet, so the tracked state at the raise point is the
input state. -/
def updateCharacterStates (parsed : Option JValue) (s : BWState) :
    Except PyErr BWState :=
  let names := s.characters.map Prod.fst
  if names.isEmpty then
    .ok s
  else
    let currentStates := s.characters.map
      (fun p => (p.1, p.2.current_state.getD "Desconocido"))
    match CharacterUpdater.updateAfterChapter parsed names currentStates with
    | .error e => .error e
    | .ok updated =>
      .ok { s with characters := s.characters.map (fun p =>
        match updated.lookup p.1 with
        | some st => (p.1, { p.2 with current_state := some st })
        | none => p) }

/-- Embedding of `BookWriter._complete_chapter` (`core.py:471-494`): index the
chapter (failures swallowed), update character states (failures escape),
append the summary entry, then advance the chapter cursor and reset the page
counter. -/
def completeChapter (env : PageEnv) (c : ChapterInfo) (s : BWState) :
    Except PyErr BWState :=
  let s1 := processCompletedChapter env.indexingOutcome s
  match updateCharacterStates env.charUpdateParsed s1 with
  | .error e => .error e
  | .ok s2 =>
    let s3 := { s2 with
      chaptersSummary := s2.chaptersSummary ++ [chapterSummaryEntry c] }
    .ok { s3 with
      currentChapterIndex := s3.currentChapterIndex + 1,
      currentPageInChapter := 0 }

/-- The success status string of `generate_page` (`core.py:420`). -/
def pageStatusMsg (pageInChapter : Nat) (totalPages : Int) (c : ChapterInfo) :
    String :=
  "✅ Página " ++ toString pageInChapter ++ "/" ++ toString totalPages
    ++ " del Cap. " ++ fmtOptInt c.number ++ " generada."

/-- Embedding of `BookWriter.generate_page` (`core.py:346-421`).  The guard
`not outline or current_chapter_index >= len(outline)` is equivalent to
`len(outline) <= current_chapter_index` for a natural index.  Context
assembly (`_build_character_profiles`, `_get_last_written_text`,
`semantic_memory.search_relevant_context`) only reads state and feeds the
prompt, so it is not materialised here; the page generator consumes
`env.pageApiContent`.  `save_memory` persists the memory dict to disk and
mutates no tracked field.  On a completion-path exception the pair carries
the state as mutated so far (the page was already appended to the book). -/
def generatePage (env : PageEnv) (s : BWState) : GPResult × BWState :=
  if s.outline.length ≤ s.currentChapterIndex then
    (.ok "✅ ¡Libro completado!" "", s)
  else
    let cinfo := currentChapterInfo s
    let pageInChapter := s.currentPageInChapter + 1
    let totalPages := cinfo.pages_estimate.getD 10
    let gen := PageGenerator.generate env.pageApiContent
    if gen.1 = false then
      (.ok gen.2 "", s)
    else
      let s1 := appendPageToBook cinfo pageInChapter gen.2 s
      if (pageInChapter : Int) ≥ totalPages then
        match completeChapter env cinfo s1 with
        | .error e => (.raised e, s1)
        | .ok s2 => (.ok (pageStatusMsg pageInChapter totalPages cinfo) gen.2, s2)
      else
        (.ok (pageStatusMsg pageInChapter totalPages cinfo) gen.2,
          { s1 with currentPageInChapter := pageInChapter })

/-- The state after a sequence of `generate_page` calls, one environment per
call (as `write_full_book` performs them).  In Python an escaping exception
would stop the driver loop, but the memory mutations made before the raise
persist; running further calls afterwards is exactly a caller re-invoking
`generate_page`. -/
def runCalls (envs : List PageEnv) (s : BWState) : BWState :=
  envs.foldl (fun st e => (generatePage e st).2) s

end BookWriter

namespace GroqCall

/-- The outcome of one `groq_client.chat.completions.create` call: the
response content, or the string form of the exception it raised. -/
inductive ApiOutcome where
  | ok (content : String)
  | exn (message : String)

instance : DecidableEq (Except PyErr String) := fun a b =>
  match a, b with
  | .ok x, .ok y => if h : x = y then .isTrue (by rw [h]) else .isFalse (by simp [h])
  | .error x, .error y => if h : x = y then .isTrue (by rw [h]) else .isFalse (by simp [h])
  | .ok _, .error _ => .isFalse (by simp)
  | .error _, .ok _ => .isFalse (by simp)

/-- What one `_call_groq` invocation did: the value it returned (or the
Python exception that escaped, for an unparseable float), every
`time.sleep` duration in order, and how many underlying API attempts were
made. -/
structure GroqTrace where
  result : Except PyErr String
  sleeps : List ℚ
  attempts : Nat
  deriving DecidableEq, Repr

/-- The literal prefix of the rate-limit wait pattern
`r"Please try again in ([\d.]+)s"`. -/
def rlMarker : List Char := "Please try again in ".data

/-- Characters matched by the regex class `[\d.]`. -/
def isDigitDot (c : Char) : Bool := c.isDigit || c == '.'

/-- Semantics of `re.search(r"Please try again in ([\d.]+)s", e)`: the group
of the match at the earliest position, if any.  At a given position the
pattern matches exactly when the literal prefix occurs there followed by a
non-empty maximal run of `[\d.]` characters and then `'s'` (no shorter run
can be followed by `'s'`, since the run characters are never `'s'`). -/
def findRetryAfterAux : List Char → Option (List Char)
  | [] => none
  | c :: rest =>
    if rlMarker.isPrefixOf (c :: rest) then
      let after := (c :: rest).drop rlMarker.length
      let run := after.takeWhile isDigitDot
      if !run.isEmpty && ((after.drop run.length).head? == some 's') then
        some run
      else
        findRetryAfterAux rest
    else
      findRetryAfterAux rest

/-- The wait-duration group extracted from an exception string, if the
rate-limit pattern matches. -/
def findRetryAfter (e : String) : Option String :=
  (findRetryAfterAux e.data).map (fun l => ⟨l⟩)

/-- Decimal digits to a natural number. -/
def digitsToNat (l : List Char) : Nat :=
  l.foldl (fun a c => a * 10 + (c.toNat - 48)) 0

/-- Python `float(g)` on a string of digits and dots (the only strings the
regex group can produce), as an exact rational: at most one dot and at least
one digit, else `None` (modelling the `ValueError` float raises). -/
def parseFloatQ (s : String) : Option ℚ :=
  match splitOnChar '.' s.data with
  | [ip] =>
    if !ip.isEmpty && ip.all Char.isDigit then some ((digitsToNat ip : ℚ))
    else none
  | [ip, fp] =>
    if (!ip.isEmpty || !fp.isEmpty) && ip.all Char.isDigit && fp.all Char.isDigit then
      some ((digitsToNat ip : ℚ) + (digitsToNat fp : ℚ) / ((10 : ℚ) ^ fp.length))
    else none
  | _ => none

/-- The message `_call_groq` returns when the retry loop exhausts without
returning (`core.py:242`). -/
def groqFinalError : String :=
  "Error: No se pudo completar la llamada a Groq tras 5 reintentos."

/-- Embedding of the retry loop of `BookWriter._call_groq`
(`core.py:187-242`), with `max_retries = 5`.  `env attempt` is the outcome of
the API call made in iteration `attempt`; `fuel` counts the iterations left
(`callGroq` starts it at 5, so `fuel = 5 - attempt` throughout).  A rate-limit
exception with a parseable wait sleeps the wait plus one second and
`continue`s — consuming the iteration, skipping both the exhaustion check and
the exponential backoff; a parse failure of the float is an uncaught
`ValueError`.  Any other exception returns the error marker on the last
iteration and otherwise sleeps `2 ** attempt` and retries. -/
def callGroqLoop (env : Nat → ApiOutcome) : Nat → Nat → GroqTrace
  | 0, _ => ⟨.ok groqFinalError, [], 0⟩
  | fuel + 1, attempt =>
    match env attempt with
    | .ok content => ⟨.ok content, [], 1⟩
    | .exn e =>
      let rateLimited := pyInStr "429" e && pyInStr "rate_limit_exceeded" e
      match (if rateLimited then findRetryAfter e else none) with
      | some g =>
        match parseFloatQ g with
        | some w =>
          let t := callGroqLoop env fuel (attempt + 1)
          ⟨t.result, (w + 1) :: t.sleeps, t.attempts + 1⟩
        | none => ⟨.error .valueError, [], 1⟩
      | none =>
        if attempt + 1 == 5 then
          ⟨.ok ("Error: Error en la llamada a Groq tras 5 intentos: " ++ e), [], 1⟩
        else
          let t := callGroqLoop env fuel (attempt + 1)
          ⟨t.result, ((2 : ℚ) ^ attempt) :: t.sleeps, t.attempts + 1⟩

/-- Embedding of `BookWriter._call_groq` (`core.py:187-242`): run the retry
loop from attempt 0 with 5 iterations available. -/
def callGroq (env : Nat → ApiOutcome) : GroqTrace :=
  callGroqLoop env 5 0

end GroqCall

namespace Persistence

/-- The state of the `memory.json` file as `load_memory` observes it:
`none` = the file does not exist; `some none` = it exists but `json.load`
raises `JSONDecodeError`; `some (some j)` = it parses to `j`. -/
def MemoryFile := Option (Option JValue)

/-- Embedding of `BookWriter._get_initial_memory` (`core.py:124-150`), the
memory structure `__init__` installs before calling `load_memory`.  The
creation timestamp and model name are environment inputs. -/
def initialMemory (projectName authorStyle styleProfile created model : String) :
    JValue :=
  .jobj [
    ("metadata", .jobj [
      ("title", .jstr projectName),
      ("author_style", .jstr authorStyle),
      ("style_profile", .jstr styleProfile),
      ("created", .jstr created),
      ("model", .jstr model),
      ("blurb", .jstr ""),
      ("cover_prompt", .jstr "")]),
    ("world", .jobj []),
    ("characters", .jobj []),
    ("plot", .jobj [
      ("outline", .jarr []),
      ("premise", .jstr ""),
      ("themes", .jarr [])]),
    ("style", .jobj []),
    ("chapters_summary", .jarr []),
    ("consistency_rules", .jarr []),
    ("writing_progress", .jobj [
      ("current_chapter_index", .jnum 0),
      ("current_page_in_chapter", .jnum 0)])]

/-- One `loaded_memory.setdefault('metadata', {}).setdefault(key, dflt)`
step of `load_memory` (`core.py:170-172`): ensure a `metadata` entry exists,
then ensure `key` exists inside it (Python mutates the inner dict through the
alias `setdefault` returns).  A non-dict memory or metadata raises
`AttributeError`. -/
def ensureMetaKey (mem : JValue) (key : String) (dflt : JValue) :
    Except PyErr JValue :=
  match mem with
  | .jobj fields =>
    let meta := (fields.lookup "metadata").getD (.jobj [])
    match meta with
    | .jobj mf =>
      let mf2 := if (mf.lookup key).isSome then mf else mf ++ [(key, dflt)]
      .ok (.jobj (setField fields "metadata" (.jobj mf2)))
    | _ => .error .attributeError
  | _ => .error .attributeError

/-- Embedding of `BookWriter.load_memory` (`core.py:162-181`): when the file
exists and parses, install the loaded dict (after the three `setdefault`
chains) as the in-memory state; a `JSONDecodeError` is caught and only
logged, keeping the current in-memory state; a missing file also keeps it.
The function performs no write, which the returned file state (always the
input) makes explicit. -/
def loadMemory (file : MemoryFile) (memory : JValue) :
    Except PyErr (JValue × MemoryFile) :=
  match file with
  | none => .ok (memory, file)
  | some none => .ok (memory, file)
  | some (some loaded) => do
    let m1 ← ensureMetaKey loaded "blurb" (.jstr "")
    let m2 ← ensureMetaKey m1 "cover_prompt" (.jstr "")
    let m3 ← ensureMetaKey m2 "style_profile" (.jstr "balanced_neutral")
    .ok (m3, file)

end Persistence

/-! Helper lemmas about association lists (Python dicts). -/

theorem any_key_true_of_lookup {β : Type} {l : List (String × β)} {k : String}
    {v : β} (h : l.lookup k = some v) : l.any (fun p => p.1 == k) = true := by
  induction l with
  | nil => simp [List.lookup] at h
  | cons p rest ih =>
    simp only [List.lookup] at h
    simp only [List.any_cons]
    cases hpk : (k == p.1) with
    | true =>
      have : p.1 == k := by
        have := eq_of_beq hpk
        simp [this]
      simp [this]
    | false =>
      rw [hpk] at h
      simp [ih h]

theorem any_key_false_of_lookup {β : Type} {l : List (String × β)} {k : String}
    (h : l.lookup k = none) : l.any (fun p => p.1 == k) = false := by
  induction l with
  | nil => rfl
  | cons p rest ih =>
    simp only [List.lookup] at h
    simp only [List.any_cons]
    cases hpk : (k == p.1) with
    | true => rw [hpk] at h; cases h
    | false =>
      rw [hpk] at h
      have hne : ¬(p.1 == k) = true := by
        intro hc
        have := eq_of_beq hc
        rw [this] at hpk
        simp at hpk
      simp only [Bool.or_eq_false_iff]
      exact ⟨by simpa using hne, ih h⟩

theorem ne_nil_of_lookup_some {β : Type} {l : List (String × β)} {k : String}
    {v : β} (h : l.lookup k = some v) : l ≠ [] := by
  intro hl
  rw [hl] at h
  simp [List.lookup] at h

/-! Reduction lemmas for the `Except` monad operations the embedding uses. -/

theorem exbind_ok {ε α β : Type} (a : α) (f : α → Except ε β) :
    (Except.ok a >>= f) = f a := rfl

theorem exbind_error {ε α β : Type} (e : ε) (f : α → Except ε β) :
    ((Except.error e : Except ε α) >>= f) = .error e := rfl

theorem expure {ε α : Type} (a : α) : (pure a : Except ε α) = .ok a := rfl

namespace CharacterUpdater

/-- What `validateOne` computes when the name maps to a string in the updates
dict. -/
theorem validateOne_jobj_jstr (fields : List (String × JValue)) (name : String)
    (states : List (String × String)) (raw : String)
    (hval : fields.lookup name = some (.jstr raw)) :
    validateOne (.jobj fields) name states = .ok (
      if pyStrip raw != "" && (pyStrip raw).length > 5 then
        if (pyStrip raw).length > 200 then pySlice (pyStrip raw) 197 ++ "..."
        else pyStrip raw
      else (states.lookup name).getD "Estado desconocido") := by
  have hany := any_key_true_of_lookup hval
  simp only [validateOne, pyIn, hany, pyGetItem, hval, exbind_ok, if_true]
  by_cases h1 : (pyStrip raw != "" && decide ((pyStrip raw).length > 5)) = true
  · by_cases h2 : (pyStrip raw).length > 200
    · simp [h1, h2, expure]
    · simp [h1, h2, expure]
  · simp [h1, expure]

/-- Every name of the list reaches the result dict with the state
`validateOne` computes for it. -/
theorem validateUpdates_ok_mem (u : JValue) (states : List (String × String)) :
    ∀ (names : List String) (r : List (String × String)),
      validateUpdates u names states = .ok r →
      ∀ name ∈ names,
        ∃ w, validateOne u name states = .ok w ∧ r.lookup name = some w := by
  intro names
  induction names with
  | nil => simp
  | cons n rest ih =>
    intro r hr name hmem
    simp only [validateUpdates] at hr
    cases h1 : validateOne u n states with
    | error e => rw [h1] at hr; simp [exbind_error] at hr
    | ok w =>
      rw [h1] at hr
      cases h2 : validateUpdates u rest states with
      | error e => rw [h2] at hr; simp [exbind_ok, exbind_error] at hr
      | ok r2 =>
        rw [h2] at hr
        simp only [exbind_ok, Except.ok.injEq] at hr
        subst hr
        rcases List.mem_cons.mp hmem with heq | hrest
        · subst heq
          exact ⟨w, h1, by simp [List.lookup]⟩
        · rcases ih r2 h2 name hrest with ⟨w2, hw2, hlk⟩
          by_cases hn : name = n
          · subst hn
            refine ⟨w, h1, ?_⟩
            simp [List.lookup]
          · refine ⟨w2, hw2, ?_⟩
            have : (name == n) = false := by simp [hn]
            simp [List.lookup, this, hlk]

/-- Every value in the result dict is one `validateOne` produced. -/
theorem validateUpdates_ok_values (u : JValue) (states : List (String × String)) :
    ∀ (names : List String) (r : List (String × String)),
      validateUpdates u names states = .ok r →
      ∀ n w, r.lookup n = some w → validateOne u n states = .ok w := by
  intro names
  induction names with
  | nil =>
    intro r hr n w hlk
    simp only [validateUpdates] at hr
    cases hr
    simp [List.lookup] at hlk
  | cons m rest ih =>
    intro r hr n w hlk
    simp only [validateUpdates] at hr
    cases h1 : validateOne u m states with
    | error e => rw [h1] at hr; simp [exbind_error] at hr
    | ok w1 =>
      rw [h1] at hr
      cases h2 : validateUpdates u rest states with
      | error e => rw [h2] at hr; simp [exbind_ok, exbind_error] at hr
      | ok r2 =>
        rw [h2] at hr
        simp only [exbind_ok, Except.ok.injEq] at hr
        subst hr
        simp only [List.lookup] at hlk
        cases hnm : (n == m) with
        | true =>
          rw [hnm] at hlk
          cases hlk
          have := eq_of_beq hnm
          rw [this]
          exact h1
        | false =>
          rw [hnm] at hlk
          exact ih r2 h2 n w hlk

/-- Any state `validateOne` returns is either the fallback (the prior state
or the default) or at most 200 characters long. -/
theorem validateOne_bound (u : JValue) (name : String)
    (states : List (String × String)) (w : String)
    (h : validateOne u name states = .ok w) :
    w = (states.lookup name).getD "Estado desconocido" ∨ w.length ≤ 200 := by
  unfold validateOne at h
  cases hin : pyIn name u with
  | error e => rw [hin, exbind_error] at h; exact Except.noConfusion h
  | ok contains =>
    rw [hin, exbind_ok] at h
    cases contains with
    | false =>
      simp only [Bool.false_eq_true, if_false, expure, Except.ok.injEq] at h
      left; exact h.symm
    | true =>
      simp only [if_true] at h
      cases hget : pyGetItem u name with
      | error e => rw [hget, exbind_error] at h; exact Except.noConfusion h
      | ok v =>
        rw [hget, exbind_ok] at h
        cases v with
        | jstr raw =>
          simp only at h
          have hdata : (pyStrip raw).data.length = (pyStrip raw).length := rfl
          have h3 : ("..." : String).length = 3 := rfl
          by_cases hc : (pyStrip raw != "" && decide ((pyStrip raw).length > 5)) = true
          · rw [if_pos hc] at h
            by_cases hlen : (pyStrip raw).length > 200
            · rw [if_pos hlen, expure] at h
              right
              rw [← Except.ok.inj h]
              have h197 : (pySlice (pyStrip raw) 197).length = 197 := by
                show ((pyStrip raw).data.take 197).length = 197
                rw [List.length_take, hdata]
                omega
              rw [String.length_append, h197, h3]
            · rw [if_neg hlen, expure] at h
              right
              rw [← Except.ok.inj h]
              omega
          · rw [if_neg hc, expure] at h
            left; exact (Except.ok.inj h).symm
        | jnull => exact Except.noConfusion h
        | jbool b => exact Except.noConfusion h
        | jnum n => exact Except.noConfusion h
        | jarr xs => exact Except.noConfusion h
        | jobj fs => exact Except.noConfusion h

end CharacterUpdater

/-- C8: when the character-update response fails to parse as structured data
(`_parse_update_response` yields `None`), `update_after_chapter` returns a
mapping identical to the input `current_states`; no state is altered.  The
name list is required non-empty since otherwise no response is ever
requested. -/
theorem c8_unparsable_response_keeps_states (parsed : Option JValue)
    (names : List String) (states : List (String × String))
    (hnames : names ≠ [])
    (hparse : CharacterUpdater.parseUpdateResponse parsed = none) :
    CharacterUpdater.updateAfterChapter parsed names states = .ok states := by
  have hne : names.isEmpty = false := by
    cases names with
    | nil => exact absurd rfl hnames
    | cons a l => rfl
  simp [CharacterUpdater.updateAfterChapter, hne, hparse]

/-- Witness for C8 at a concrete input: a `json.JSONDecodeError` response
with one character leaves the single current state untouched. -/
theorem c8_unparsable_response_keeps_states_witness :
    (["Ana"] : List String) ≠ [] ∧
    CharacterUpdater.parseUpdateResponse none = none ∧
    CharacterUpdater.updateAfterChapter none ["Ana"] [("Ana", "bien")] =
      .ok [("Ana", "bien")] :=
  ⟨by simp, rfl,
    c8_unparsable_response_keeps_states none ["Ana"] [("Ana", "bien")]
      (by simp) rfl⟩

/-- C9: for a character name of the update call whose parsed state is a
string, the returned state is the stripped string truncated to 197
characters plus an ellipsis (total length 200) when longer than 200
characters, the stripped string verbatim when its length is 6 to 200, and the
prior state (or the default) when its length is at most 5; moreover every
state in the returned mapping is either the prior/default state or at most
200 characters long. -/
theorem c9_state_truncation (fields : List (String × JValue))
    (names : List String) (states : List (String × String)) (name : String)
    (raw : String) (r : List (String × String))
    (hmem : name ∈ names)
    (hval : fields.lookup name = some (.jstr raw))
    (hncu : fields.lookup "character_updates" = none)
    (hok : CharacterUpdater.updateAfterChapter (some (.jobj fields)) names
      states = .ok r) :
    ((pyStrip raw).length > 200 →
        r.lookup name = some (pySlice (pyStrip raw) 197 ++ "...") ∧
        (pySlice (pyStrip raw) 197 ++ "...").length = 200) ∧
    (6 ≤ (pyStrip raw).length ∧ (pyStrip raw).length ≤ 200 →
        r.lookup name = some (pyStrip raw)) ∧
    ((pyStrip raw).length ≤ 5 →
        r.lookup name = some ((states.lookup name).getD "Estado desconocido")) ∧
    (∀ n w, r.lookup n = some w →
        w = (states.lookup n).getD "Estado desconocido" ∨ w.length ≤ 200) := by
  have hne : names.isEmpty = false := by
    cases names with
    | nil => simp at hmem
    | cons a l => rfl
  have hfne : fields.isEmpty = false := by
    have := ne_nil_of_lookup_some hval
    cases fields with
    | nil => exact absurd rfl this
    | cons a l => rfl
  have hanyCU : fields.any (fun p => p.1 == "character_updates") = false :=
    any_key_false_of_lookup hncu
  have hparse : CharacterUpdater.parseUpdateResponse (some (.jobj fields)) =
      some (.jobj fields) := by
    simp [CharacterUpdater.parseUpdateResponse, pyIn, hanyCU]
  have hvu : CharacterUpdater.validateUpdates (.jobj fields) names states =
      .ok r := by
    rw [CharacterUpdater.updateAfterChapter, if_neg (by simp [hne]), hparse]
      at hok
    simpa [pyFalsy, hfne] using hok
  have hone := CharacterUpdater.validateOne_jobj_jstr fields name states raw hval
  rcases CharacterUpdater.validateUpdates_ok_mem (.jobj fields) states names r
    hvu name hmem with ⟨w, hw, hlk⟩
  rw [hone] at hw
  have hwval := Except.ok.inj hw
  refine ⟨?_, ?_, ?_, ?_⟩
  · intro hlong
    have hcond : (pyStrip raw != "" && (pyStrip raw).length > 5) = true := by
      have : pyStrip raw ≠ "" := by
        intro hempty
        rw [hempty] at hlong
        simp at hlong
      simp [this]
      omega
    rw [if_pos hcond, if_pos hlong] at hwval
    subst hwval
    refine ⟨hlk, ?_⟩
    have hdata : (pyStrip raw).data.length = (pyStrip raw).length := rfl
    have h3 : ("..." : String).length = 3 := rfl
    have h197 : (pySlice (pyStrip raw) 197).length = 197 := by
      show ((pyStrip raw).data.take 197).length = 197
      rw [List.length_take, hdata]
      omega
    rw [String.length_append, h197, h3]
  · intro ⟨h6, h200⟩
    have hcond : (pyStrip raw != "" && (pyStrip raw).length > 5) = true := by
      have : pyStrip raw ≠ "" := by
        intro hempty
        rw [hempty] at h6
        simp at h6
      simp [this]
      omega
    rw [if_pos hcond, if_neg (by omega)] at hwval
    subst hwval
    exact hlk
  · intro hshort
    have hcond : (pyStrip raw != "" && (pyStrip raw).length > 5) = false := by
      simp only [Bool.and_eq_false_iff]
      right
      simp
      omega
    rw [if_neg (by simp [hcond])] at hwval
    subst hwval
    exact hlk
  · intro n w2 hlk2
    exact CharacterUpdater.validateOne_bound (.jobj fields) n states w2
      (CharacterUpdater.validateUpdates_ok_values (.jobj fields) states names r
        hvu n w2 hlk2)

/-! Lemmas for the chunking claim (C3). -/

theorem ceilDiv_sub_step (n step : Nat) (hstep : 0 < step) (hn : 0 < n) :
    (n + step - 1) / step = (n - step + step - 1) / step + 1 := by
  have e1 : n + step - 1 = (n - 1) + step := by omega
  rw [e1, Nat.add_div_right _ hstep]
  rcases Nat.lt_or_ge n step with h | h
  · have h1 : (n - 1) / step = 0 := Nat.div_eq_of_lt (by omega)
    have h2 : (n - step + step - 1) / step = 0 := Nat.div_eq_of_lt (by omega)
    omega
  · have e2 : n - step + step - 1 = n - 1 := by omega
    rw [e2]

theorem pyRange_zero_cons (n step : Nat) (hstep : 0 < step) (hn : 0 < n) :
    SemanticMemory.pyRange 0 n step =
      0 :: (SemanticMemory.pyRange 0 (n - step) step).map (fun i => i + step) := by
  unfold SemanticMemory.pyRange
  simp only [Nat.sub_zero]
  rw [ceilDiv_sub_step n step hstep hn, List.range_succ_eq_map]
  simp only [List.map_cons, List.map_map]
  refine congrArg₂ List.cons (by simp) ?_
  apply List.map_congr_left
  intro a _
  simp [Function.comp, Nat.succ_mul]

theorem join_take_pyRange (step : Nat) (hstep : 0 < step) :
    ∀ (n : Nat) (words : List String), words.length = n →
      ((SemanticMemory.pyRange 0 n step).map
          (fun i => (words.drop i).take step)).flatten = words := by
  intro n
  induction n using Nat.strong_induction_on with
  | _ n ih =>
    intro words hlen
    rcases Nat.eq_zero_or_pos n with h0 | hpos
    · subst h0
      have hw : words = [] := List.eq_nil_of_length_eq_zero hlen
      subst hw
      have hr0 : SemanticMemory.pyRange 0 0 step = [] := by
        unfold SemanticMemory.pyRange
        have hd : (0 - 0 + step - 1) / step = 0 := Nat.div_eq_of_lt (by omega)
        rw [hd]
        simp
      simp [hr0]
    · rw [pyRange_zero_cons n step hstep hpos]
      simp only [List.map_cons, List.map_map, List.flatten_cons, List.drop_zero]
      have htail :
          ((SemanticMemory.pyRange 0 (n - step) step).map
            ((fun i => (words.drop i).take step) ∘ (fun i => i + step))).flatten =
            words.drop step := by
        have hcomp : ((fun i => (words.drop i).take step) ∘ (fun i => i + step)) =
            (fun i => ((words.drop step).drop i).take step) := by
          funext i
          simp [Function.comp, List.drop_drop]
          rw [Nat.add_comm]
        rw [hcomp]
        exact ih (n - step) (by omega) (words.drop step)
          (by rw [List.length_drop, hlen])
      rw [htail, List.take_append_drop]

/-- A concrete chapter text of `n` words: the word `a` repeated `n` times,
separated by single spaces. -/
def spacedChars : Nat → List Char
  | 0 => []
  | 1 => ['a']
  | n + 2 => 'a' :: ' ' :: spacedChars (n + 1)

/-- The text `"a a a ... a"` with `n` words. -/
def spacedText (n : Nat) : String := ⟨spacedChars n⟩

theorem splitWsAux_spacedChars :
    ∀ n, SemanticMemory.splitWsAux (spacedChars n) [] = List.replicate n "a"
  | 0 => by simp [spacedChars, SemanticMemory.splitWsAux]
  | 1 => by
    show SemanticMemory.splitWsAux ['a'] [] = ["a"]
    have ha : isPyWs 'a' = false := by decide
    simp [SemanticMemory.splitWsAux, ha]
  | n + 2 => by
    show SemanticMemory.splitWsAux ('a' :: ' ' :: spacedChars (n + 1)) [] =
      List.replicate (n + 2) "a"
    have ha : isPyWs 'a' = false := by decide
    have hsp : isPyWs ' ' = true := by decide
    simp only [SemanticMemory.splitWsAux, ha, hsp, Bool.false_eq_true, if_false,
      if_true, List.isEmpty_cons, List.isEmpty_nil]
    rw [splitWsAux_spacedChars (n + 1)]
    rfl

theorem pySplitWs_spacedText (n : Nat) :
    SemanticMemory.pySplitWs (spacedText n) = List.replicate n "a" :=
  splitWsAux_spacedChars n

/-- C3 counterexample: a chapter text of 401 words (with the default chunk
size 250 and overlap 50, and 401 > 250) is chunked into 3 chunks by
`_chunk_text` — the loop `range(0, 401, 200)` visits 0, 200 and 400 — while
the claimed formula `ceil((W - O) / (C - O)) = ceil(351 / 200)` gives 2, so
the claimed chunk count is wrong (the trailing window starting inside the
last overlap produces an extra chunk). -/
theorem c3_chunk_count_counterexample :
    (SemanticMemory.pySplitWs (spacedText 401)).length = 401 ∧
    250 < 401 ∧
    (SemanticMemory.chunkText (spacedText 401)).length = 3 ∧
    (401 - 50 + 200 - 1) / 200 = 2 ∧
    (3 : Nat) ≠ 2 := by
  have hs := pySplitWs_spacedText 401
  refine ⟨by rw [hs, List.length_replicate], by norm_num, ?_, by norm_num,
    by norm_num⟩
  unfold SemanticMemory.chunkText SemanticMemory.pyRange
  rw [hs]
  simp only [List.length_map, List.length_range, List.length_replicate]

/-- C3 amended: chunking a chapter of `W > C` words with the default chunk
size `C = 250` and overlap `O = 50` produces `ceil(W / (C - O)) =
(W + 199) / 200` chunks (not `ceil((W - O) / (C - O))`), and concatenating
the first `C - O = 200` words of each chunk in order reconstructs the
original word sequence. -/
theorem c3_chunking_amended (text : String)
    (hW : 250 < (SemanticMemory.pySplitWs text).length) :
    (SemanticMemory.chunkText text).length =
      ((SemanticMemory.pySplitWs text).length + 199) / 200 ∧
    ((SemanticMemory.chunkWordLists (SemanticMemory.pySplitWs text)).map
        (List.take 200)).flatten = SemanticMemory.pySplitWs text := by
  constructor
  · unfold SemanticMemory.chunkText SemanticMemory.pyRange
    simp only [List.length_map, List.length_range, Nat.sub_zero]
    congr 1
  · unfold SemanticMemory.chunkWordLists
    simp only [List.map_map]
    have hcomp : (List.take 200 ∘ fun i =>
        ((SemanticMemory.pySplitWs text).drop i).take 250) =
        (fun i => ((SemanticMemory.pySplitWs text).drop i).take 200) := by
      funext i
      simp [Function.comp, List.take_take]
    rw [hcomp]
    exact join_take_pyRange 200 (by norm_num) _ (SemanticMemory.pySplitWs text) rfl

/-- Witness for C3 (amended) at a concrete input: a 251-word chapter. -/
theorem c3_chunking_amended_witness :
    250 < (SemanticMemory.pySplitWs (spacedText 251)).length ∧
    ((SemanticMemory.chunkText (spacedText 251)).length =
      ((SemanticMemory.pySplitWs (spacedText 251)).length + 199) / 200 ∧
    ((SemanticMemory.chunkWordLists (SemanticMemory.pySplitWs (spacedText 251))).map
        (List.take 200)).flatten = SemanticMemory.pySplitWs (spacedText 251)) :=
  ⟨by rw [pySplitWs_spacedText, List.length_replicate]; norm_num,
    c3_chunking_amended (spacedText 251)
      (by rw [pySplitWs_spacedText, List.length_replicate]; norm_num)⟩

/-- A concrete rate-limit exception string of the shape the Groq client
produces, carrying a parseable suggested wait of 2.5 seconds. -/
def rlExn : String :=
  "Error code: 429 - rate_limit_exceeded. Please try again in 2.5s."

/-- A stubbed API that rate-limits the first attempt and succeeds on the
second. -/
def rlEnvOnce : Nat → GroqCall.ApiOutcome :=
  fun n => if n = 0 then .exn rlExn else .ok "texto"

theorem parseFloat25 : GroqCall.parseFloatQ "2.5" = some ((5 : ℚ)/2) := by
  have h2 : GroqCall.digitsToNat ['2'] = 2 := rfl
  have h5 : GroqCall.digitsToNat ['5'] = 5 := rfl
  show some ((GroqCall.digitsToNat ['2'] : ℚ) +
    (GroqCall.digitsToNat ['5'] : ℚ) / 10 ^ (['5'] : List Char).length) =
    some ((5 : ℚ)/2)
  rw [h2, h5]
  norm_num

/-- C4 counterexample: an API that answers every attempt with a rate-limit
error carrying the parseable wait 2.5s makes `_call_groq` sleep 3.5s five
times and then return the retries-exhausted error marker after exactly 5
underlying attempts.  The rate-limit deferrals therefore DO count against the
5-attempt budget (each `continue` consumes an iteration of
`for attempt in range(max_retries)`), refuting the claim that such a retry
"does not count against the bounded generic retry attempt budget". -/
theorem c4_rate_limit_budget_counterexample :
    GroqCall.callGroq (fun _ => .exn rlExn) =
      ⟨.ok GroqCall.groqFinalError, List.replicate 5 ((7 : ℚ)/2), 5⟩ := by
  have h429 : pyInStr "429" rlExn = true := rfl
  have hrl : pyInStr "rate_limit_exceeded" rlExn = true := rfl
  have hfind : GroqCall.findRetryAfter rlExn = some "2.5" := rfl
  have hstep : ∀ fuel attempt,
      GroqCall.callGroqLoop (fun _ => .exn rlExn) (fuel + 1) attempt =
        ⟨(GroqCall.callGroqLoop (fun _ => .exn rlExn) fuel (attempt + 1)).result,
          ((5 : ℚ)/2 + 1) ::
            (GroqCall.callGroqLoop (fun _ => .exn rlExn) fuel (attempt + 1)).sleeps,
          (GroqCall.callGroqLoop (fun _ => .exn rlExn) fuel (attempt + 1)).attempts
            + 1⟩ := by
    intro fuel attempt
    simp only [GroqCall.callGroqLoop, h429, hrl, Bool.and_self, if_true, hfind,
      parseFloat25]
  have hbase : GroqCall.callGroqLoop (fun _ => .exn rlExn) 0 5 =
      ⟨.ok GroqCall.groqFinalError, [], 0⟩ := rfl
  have hw : (5 : ℚ)/2 + 1 = 7/2 := by norm_num
  show GroqCall.callGroqLoop (fun _ => .exn rlExn) 5 0 = _
  rw [show (5 : Nat) = 4 + 1 from rfl, hstep,
    show (4 : Nat) = 3 + 1 from rfl, hstep,
    show (3 : Nat) = 2 + 1 from rfl, hstep,
    show (2 : Nat) = 1 + 1 from rfl, hstep,
    show (1 : Nat) = 0 + 1 from rfl, hstep, hbase, hw]
  rfl

/-- C4 amended: a rate-limit error with a parseable server-suggested wait `w`
makes the client sleep exactly `w + 1` seconds (the margin is one second) and
retry without the exponential-backoff sleep, but the deferral does consume
one of the 5 attempts; a single deferral followed by a success makes exactly
2 underlying attempts, sleeps only the one deferral wait, and returns the
successful text. -/
theorem c4_rate_limit_amended (e g t : String) (w : ℚ)
    (env : Nat → GroqCall.ApiOutcome)
    (h429 : pyInStr "429" e = true)
    (hrl : pyInStr "rate_limit_exceeded" e = true)
    (hfind : GroqCall.findRetryAfter e = some g)
    (hparse : GroqCall.parseFloatQ g = some w)
    (henv0 : env 0 = .exn e)
    (henv1 : env 1 = .ok t) :
    GroqCall.callGroq env = ⟨.ok t, [w + 1], 2⟩ := by
  have step1 : GroqCall.callGroqLoop env 4 1 = ⟨.ok t, [], 1⟩ := by
    rw [show (4 : Nat) = 3 + 1 from rfl]
    simp only [GroqCall.callGroqLoop, henv1]
  have step0 : GroqCall.callGroqLoop env 5 0 =
      ⟨(GroqCall.callGroqLoop env 4 1).result,
        (w + 1) :: (GroqCall.callGroqLoop env 4 1).sleeps,
        (GroqCall.callGroqLoop env 4 1).attempts + 1⟩ := by
    rw [show (5 : Nat) = 4 + 1 from rfl]
    simp only [GroqCall.callGroqLoop, henv0, h429, hrl, Bool.and_self, if_true,
      hfind, hparse]
  show GroqCall.callGroqLoop env 5 0 = _
  rw [step0, step1]

/-- Witness for C4 (amended) at a concrete input: the stub that rate-limits
once with wait 2.5s and then succeeds. -/
theorem c4_rate_limit_amended_witness :
    pyInStr "429" rlExn = true ∧
    pyInStr "rate_limit_exceeded" rlExn = true ∧
    GroqCall.findRetryAfter rlExn = some "2.5" ∧
    GroqCall.parseFloatQ "2.5" = some ((5 : ℚ)/2) ∧
    rlEnvOnce 0 = .exn rlExn ∧
    rlEnvOnce 1 = .ok "texto" ∧
    GroqCall.callGroq rlEnvOnce = ⟨.ok "texto", [(5 : ℚ)/2 + 1], 2⟩ :=
  ⟨rfl, rfl, rfl, parseFloat25, rfl, rfl,
    c4_rate_limit_amended rlExn "2.5" "texto" ((5 : ℚ)/2) rlEnvOnce
      rfl rfl rfl parseFloat25 rfl rfl⟩

/-- C10: when `memory.json` exists on disk but holds invalid JSON,
`load_memory` catches the `JSONDecodeError` (it does not raise), performs no
write (the file state it returns is its input), and the in-memory state stays
the freshly initialised default structure, whose `plot.outline` is empty and
whose `writing_progress` sits at chapter index 0, page 0. -/
theorem c10_corrupt_memory_keeps_default (pn as sp cr md : String) :
    Persistence.loadMemory (some none) (Persistence.initialMemory pn as sp cr md)
      = .ok (Persistence.initialMemory pn as sp cr md, some none) ∧
    (do
      let plot ← pyGetItem (Persistence.initialMemory pn as sp cr md) "plot"
      pyGetItem plot "outline") = .ok (.jarr []) ∧
    (do
      let wp ← pyGetItem (Persistence.initialMemory pn as sp cr md)
        "writing_progress"
      pyGetItem wp "current_chapter_index") = .ok (.jnum 0) ∧
    (do
      let wp ← pyGetItem (Persistence.initialMemory pn as sp cr md)
        "writing_progress"
      pyGetItem wp "current_page_in_chapter") = .ok (.jnum 0) :=
  ⟨rfl, rfl, rfl, rfl⟩

namespace BookWriter

theorem processCompletedChapter_id (o : Except PyErr Unit) (s : BWState) :
    processCompletedChapter o s = s := by
  cases o <;> rfl

/-- A successful character-state update only rewrites
`memory['characters'][*]['current_state']`; progress, summary, outline and
manuscript are untouched. -/
theorem updateCharacterStates_ok_progress (parsed : Option JValue)
    (s t : BWState) (h : updateCharacterStates parsed s = .ok t) :
    t.currentChapterIndex = s.currentChapterIndex ∧
    t.currentPageInChapter = s.currentPageInChapter ∧
    t.chaptersSummary = s.chaptersSummary ∧
    t.book = s.book ∧
    t.outline = s.outline := by
  unfold updateCharacterStates at h
  by_cases hn : (s.characters.map Prod.fst).isEmpty
  · rw [if_pos hn] at h
    cases h
    exact ⟨rfl, rfl, rfl, rfl, rfl⟩
  · rw [if_neg hn] at h
    dsimp only at h
    cases hu : CharacterUpdater.updateAfterChapter parsed
        (s.characters.map Prod.fst)
        (s.characters.map (fun p => (p.1, p.2.current_state.getD "Desconocido"))) with
    | error e => rw [hu] at h; exact Except.noConfusion h
    | ok updated =>
      rw [hu] at h
      cases h
      exact ⟨rfl, rfl, rfl, rfl, rfl⟩

/-- A chapter completion that runs to the end advances the chapter cursor by
one, resets the page counter and appends exactly one summary entry. -/
theorem completeChapter_ok_progress (env : PageEnv) (c : ChapterInfo)
    (s t : BWState) (h : completeChapter env c s = .ok t) :
    t.currentChapterIndex = s.currentChapterIndex + 1 ∧
    t.currentPageInChapter = 0 ∧
    t.chaptersSummary = s.chaptersSummary ++ [chapterSummaryEntry c] ∧
    t.book = s.book ∧
    t.outline = s.outline := by
  unfold completeChapter at h
  rw [processCompletedChapter_id] at h
  dsimp only at h
  cases hu : updateCharacterStates env.charUpdateParsed s with
  | error e => rw [hu] at h; exact Except.noConfusion h
  | ok s2 =>
    rw [hu] at h
    obtain ⟨h1, h2, h3, h4, h5⟩ := updateCharacterStates_ok_progress _ _ _ hu
    cases h
    refine ⟨by simpa using h1, rfl, by simpa using h3, by simpa using h4,
      by simpa using h5⟩

/-- Each `generate_page` call either leaves the chapter cursor alone (and
then leaves the page counter alone or advances it by exactly one) or advances
the cursor by one with the page counter reset to 0. -/
theorem generatePage_progress_cases (env : PageEnv) (s : BWState) :
    ((generatePage env s).2.currentChapterIndex = s.currentChapterIndex ∧
        ((generatePage env s).2.currentPageInChapter = s.currentPageInChapter ∨
          (generatePage env s).2.currentPageInChapter =
            s.currentPageInChapter + 1)) ∨
      ((generatePage env s).2.currentChapterIndex = s.currentChapterIndex + 1 ∧
        (generatePage env s).2.currentPageInChapter = 0) := by
  unfold generatePage
  by_cases hguard : s.outline.length ≤ s.currentChapterIndex
  · rw [if_pos hguard]
    exact Or.inl ⟨rfl, Or.inl rfl⟩
  · rw [if_neg hguard]
    dsimp only
    by_cases hgen : (PageGenerator.generate env.pageApiContent).1 = false
    · rw [if_pos hgen]
      exact Or.inl ⟨rfl, Or.inl rfl⟩
    · rw [if_neg hgen]
      by_cases hcomp : (((s.currentPageInChapter + 1 : Nat) : Int) ≥
          (currentChapterInfo s).pages_estimate.getD 10)
      · rw [if_pos hcomp]
        cases hcc : completeChapter env (currentChapterInfo s)
            (appendPageToBook (currentChapterInfo s)
              (s.currentPageInChapter + 1)
              (PageGenerator.generate env.pageApiContent).2 s) with
        | error e =>
          exact Or.inl ⟨rfl, Or.inl rfl⟩
        | ok s2 =>
          obtain ⟨h1, h2, _, _, _⟩ := completeChapter_ok_progress _ _ _ _ hcc
          exact Or.inr ⟨h1, h2⟩
      · rw [if_neg hcomp]
        exact Or.inl ⟨rfl, Or.inr rfl⟩

/-- A call whose page generation fails returns with the state untouched. -/
theorem generatePage_failure_unchanged (env : PageEnv) (s : BWState)
    (hfail : (PageGenerator.generate env.pageApiContent).1 = false) :
    (generatePage env s).2 = s := by
  unfold generatePage
  by_cases hguard : s.outline.length ≤ s.currentChapterIndex
  · rw [if_pos hguard]
  · rw [if_neg hguard]
    dsimp only
    rw [if_pos hfail]

/-- A successful, non-completing call sets the page counter to the newly
written page number and keeps the chapter cursor. -/
theorem generatePage_success_noncompleting (env : PageEnv) (s : BWState)
    (hw : s.currentChapterIndex < s.outline.length)
    (hsucc : (PageGenerator.generate env.pageApiContent).1 = true)
    (hlt : (((s.currentPageInChapter + 1 : Nat) : Int) <
      (currentChapterInfo s).pages_estimate.getD 10)) :
    (generatePage env s).2.currentPageInChapter = s.currentPageInChapter + 1 ∧
    (generatePage env s).2.currentChapterIndex = s.currentChapterIndex := by
  unfold generatePage
  rw [if_neg (not_le.mpr hw)]
  dsimp only
  rw [if_neg (by simp [hsucc]), if_neg (not_le.mpr hlt)]
  exact ⟨rfl, rfl⟩

/-- The chapter cursor never decreases over any sequence of calls. -/
theorem runCalls_chapter_mono (envs : List PageEnv) :
    ∀ s : BWState,
      s.currentChapterIndex ≤ (runCalls envs s).currentChapterIndex := by
  induction envs with
  | nil => intro s; simp [runCalls]
  | cons e rest ih =>
    intro s
    have hstep : runCalls (e :: rest) s = runCalls rest ((generatePage e s).2) := by
      simp [runCalls]
    rw [hstep]
    have h1 : s.currentChapterIndex ≤ (generatePage e s).2.currentChapterIndex := by
      rcases generatePage_progress_cases e s with ⟨h, _⟩ | ⟨h, _⟩ <;> omega
    exact le_trans h1 (ih _)

/-- The chapter-completion step reads the call environment only through the
character-update parse result; the indexing outcome is swallowed. -/
theorem completeChapter_env_eq (e1 e2 : PageEnv) (c : ChapterInfo)
    (s : BWState) (h : e1.charUpdateParsed = e2.charUpdateParsed) :
    completeChapter e1 c s = completeChapter e2 c s := by
  unfold completeChapter
  rw [processCompletedChapter_id, processCompletedChapter_id, h]

/-- `generate_page` depends on the call environment only through the page
response and the character-update parse result — never on whether the
semantic-indexing body raised. -/
theorem generatePage_env_eq (e1 e2 : PageEnv) (s : BWState)
    (hp : e1.pageApiContent = e2.pageApiContent)
    (hc : e1.charUpdateParsed = e2.charUpdateParsed) :
    generatePage e1 s = generatePage e2 s := by
  unfold generatePage
  rw [hp]
  simp only [show ∀ c st, completeChapter e1 c st = completeChapter e2 c st from
    fun c st => completeChapter_env_eq e1 e2 c st hc]

end BookWriter

/-- C1: when the underlying page generation reports failure (the response
carries the error marker or is blank), `generate_page` returns the error
content with empty page text and the state — `writing_progress`, the
manuscript and everything else — is byte-for-byte the state before the call,
so a re-invocation re-attempts the same page. -/
theorem c1_failed_generation_atomic (env : BookWriter.PageEnv)
    (s : BookWriter.BWState)
    (hwriting : s.currentChapterIndex < s.outline.length)
    (hfail : (PageGenerator.generate env.pageApiContent).1 = false) :
    BookWriter.generatePage env s =
      (.ok (PageGenerator.generate env.pageApiContent).2 "", s) := by
  unfold BookWriter.generatePage
  rw [if_neg (not_le.mpr hwriting)]
  dsimp only
  rw [if_pos hfail]

/-- Witness for C1 at a concrete input: a response carrying the error
marker. -/
theorem c1_failed_generation_atomic_witness :
    (0 : Nat) < ([⟨some 1, some "Uno", some "Res", some 3, some []⟩] :
      List BookWriter.ChapterInfo).length ∧
    (PageGenerator.generate "Error: fallo").1 = false ∧
    BookWriter.generatePage ⟨"Error: fallo", none, .ok ()⟩
        ⟨0, 0, [⟨some 1, some "Uno", some "Res", some 3, some []⟩], [], [], none⟩ =
      (.ok (PageGenerator.generate "Error: fallo").2 "",
        ⟨0, 0, [⟨some 1, some "Uno", some "Res", some 3, some []⟩], [], [], none⟩) :=
  ⟨by simp, rfl,
    c1_failed_generation_atomic ⟨"Error: fallo", none, .ok ()⟩
      ⟨0, 0, [⟨some 1, some "Uno", some "Res", some 3, some []⟩], [], [], none⟩
      (by simp) rfl⟩

/-- C2: over any sequence of calls on a project with a non-empty outline the
chapter cursor is non-decreasing; each call either keeps the cursor (and
keeps the page counter or advances it by one) or advances the cursor by one
and resets the page counter to 0; a failed generation changes nothing; and a
successful call that does not complete the chapter sets the page counter to
the newly written page number with the cursor unchanged. -/
theorem c2_progress_monotone (s : BookWriter.BWState)
    (env : BookWriter.PageEnv) (envs : List BookWriter.PageEnv)
    (houtline : s.outline ≠ []) :
    s.currentChapterIndex ≤
      (BookWriter.runCalls envs s).currentChapterIndex ∧
    (((BookWriter.generatePage env s).2.currentChapterIndex =
          s.currentChapterIndex ∧
        ((BookWriter.generatePage env s).2.currentPageInChapter =
            s.currentPageInChapter ∨
          (BookWriter.generatePage env s).2.currentPageInChapter =
            s.currentPageInChapter + 1)) ∨
      ((BookWriter.generatePage env s).2.currentChapterIndex =
          s.currentChapterIndex + 1 ∧
        (BookWriter.generatePage env s).2.currentPageInChapter = 0)) ∧
    ((PageGenerator.generate env.pageApiContent).1 = false →
      (BookWriter.generatePage env s).2 = s) ∧
    (s.currentChapterIndex < s.outline.length →
      (PageGenerator.generate env.pageApiContent).1 = true →
      (((s.currentPageInChapter + 1 : Nat) : Int) <
        (BookWriter.currentChapterInfo s).pages_estimate.getD 10) →
      (BookWriter.generatePage env s).2.currentPageInChapter =
          s.currentPageInChapter + 1 ∧
        (BookWriter.generatePage env s).2.currentChapterIndex =
          s.currentChapterIndex) :=
  ⟨BookWriter.runCalls_chapter_mono envs s,
    BookWriter.generatePage_progress_cases env s,
    fun hfail => BookWriter.generatePage_failure_unchanged env s hfail,
    fun hw hsucc hlt =>
      BookWriter.generatePage_success_noncompleting env s hw hsucc hlt⟩

/-- Witness for C2 at a concrete input: one successful non-completing call on
a fresh two-page chapter. -/
theorem c2_progress_monotone_witness :
    (([⟨some 1, some "Uno", some "Res", some 2, some []⟩] :
        List BookWriter.ChapterInfo) ≠ []) ∧
    (BookWriter.generatePage ⟨"Prosa limpia.", none, .ok ()⟩
        ⟨0, 0, [⟨some 1, some "Uno", some "Res", some 2, some []⟩], [], [], none⟩).2.currentPageInChapter = 1 :=
  ⟨by simp,
    ((c2_progress_monotone
      ⟨0, 0, [⟨some 1, some "Uno", some "Res", some 2, some []⟩], [], [], none⟩
      ⟨"Prosa limpia.", none, .ok ()⟩ []
      (by simp)).2.2.2 (by simp) rfl (by decide)).1⟩

/-- A concrete writing state on the last page of a one-page chapter with one
character. -/
def s5 : BookWriter.BWState :=
  ⟨0, 0, [⟨some 1, some "Uno", some "Res", some 1, some []⟩],
    [("Ana", ⟨some "detective", some "al inicio"⟩)], [], none⟩

/-- A call environment whose character-update response parses to a dict that
maps the character to a number instead of a string. -/
def env5 : BookWriter.PageEnv :=
  ⟨"Prosa limpia.", some (.jobj [("Ana", .jnum 42)]), .ok ()⟩

/-- C5 counterexample: on a successful chapter-completing page, a failure
inside the character-state-update step (here `updates['Ana'].strip()` raising
`AttributeError` because the parsed response maps the name to the number 42)
escapes `generate_page` and DOES prevent the `chapters_summary` append, the
`current_chapter_index` increment and the `current_page_in_chapter` reset —
refuting the claim that those transitions happen regardless.  (The page text
was already appended to the manuscript before the raise.) -/
theorem c5_character_update_failure_counterexample :
    (BookWriter.generatePage env5 s5).1 = .raised .attributeError ∧
    (BookWriter.generatePage env5 s5).2.chaptersSummary = [] ∧
    (BookWriter.generatePage env5 s5).2.currentChapterIndex = 0 ∧
    (BookWriter.generatePage env5 s5).2.currentPageInChapter = 0 ∧
    (BookWriter.generatePage env5 s5).2.book =
      some "\n\n## Capítulo 1: Uno\n\nProsa limpia.\n" :=
  ⟨rfl, rfl, rfl, rfl, rfl⟩

/-- C5 amended: on a chapter-completing page whose generation succeeded, a
failure inside the semantic-indexing step never influences the call (the
source wraps that step in `try/except`), and whenever the
character-state-update step returns normally the `chapters_summary` append,
the chapter-cursor increment and the page-counter reset all happen; but an
exception escaping the character-state update aborts the call before those
transitions (see the counterexample). -/
theorem c5_completion_transitions_amended (env : BookWriter.PageEnv)
    (o2 : Except PyErr Unit) (s s2 : BookWriter.BWState)
    (hidx : s.currentChapterIndex < s.outline.length)
    (hsucc : (PageGenerator.generate env.pageApiContent).1 = true)
    (hcomp : (((s.currentPageInChapter + 1 : Nat) : Int) ≥
      (BookWriter.currentChapterInfo s).pages_estimate.getD 10))
    (hupd : BookWriter.updateCharacterStates env.charUpdateParsed
      (BookWriter.appendPageToBook (BookWriter.currentChapterInfo s)
        (s.currentPageInChapter + 1)
        (PageGenerator.generate env.pageApiContent).2 s) = .ok s2) :
    BookWriter.generatePage { env with indexingOutcome := o2 } s =
      BookWriter.generatePage env s ∧
    (BookWriter.generatePage env s).2.currentChapterIndex =
      s.currentChapterIndex + 1 ∧
    (BookWriter.generatePage env s).2.currentPageInChapter = 0 ∧
    (BookWriter.generatePage env s).2.chaptersSummary =
      s.chaptersSummary ++
        [BookWriter.chapterSummaryEntry (BookWriter.currentChapterInfo s)] ∧
    (∃ st txt, (BookWriter.generatePage env s).1 = .ok st txt) := by
  have hcc : BookWriter.completeChapter env (BookWriter.currentChapterInfo s)
      (BookWriter.appendPageToBook (BookWriter.currentChapterInfo s)
        (s.currentPageInChapter + 1)
        (PageGenerator.generate env.pageApiContent).2 s) =
      .ok { s2 with
        chaptersSummary := s2.chaptersSummary ++
          [BookWriter.chapterSummaryEntry (BookWriter.currentChapterInfo s)],
        currentChapterIndex := s2.currentChapterIndex + 1,
        currentPageInChapter := 0 } := by
    unfold BookWriter.completeChapter
    rw [BookWriter.processCompletedChapter_id]
    dsimp only
    rw [hupd]
  have hmain : BookWriter.generatePage env s =
      (.ok (BookWriter.pageStatusMsg (s.currentPageInChapter + 1)
          ((BookWriter.currentChapterInfo s).pages_estimate.getD 10)
          (BookWriter.currentChapterInfo s))
        (PageGenerator.generate env.pageApiContent).2,
        { s2 with
          chaptersSummary := s2.chaptersSummary ++
            [BookWriter.chapterSummaryEntry (BookWriter.currentChapterInfo s)],
          currentChapterIndex := s2.currentChapterIndex + 1,
          currentPageInChapter := 0 }) := by
    unfold BookWriter.generatePage
    rw [if_neg (not_le.mpr hidx)]
    dsimp only
    rw [if_neg (by simp [hsucc]), if_pos hcomp, hcc]
  obtain ⟨hp1, hp2, hp3, _, _⟩ :=
    BookWriter.updateCharacterStates_ok_progress _ _ _ hupd
  refine ⟨BookWriter.generatePage_env_eq _ _ s rfl rfl, ?_, ?_, ?_, ?_⟩
  · rw [hmain]
    simpa using hp1
  · rw [hmain]
  · rw [hmain]
    simpa using hp3
  · exact ⟨_, _, by rw [hmain]⟩

/-- A call environment whose character-update response fails to parse, so the
update step falls back to the prior states and returns normally. -/
def env5ok : BookWriter.PageEnv := ⟨"Prosa limpia.", none, .ok ()⟩

/-- The state after appending the final page of `s5`'s chapter, which is also
what the fail-soft character update returns. -/
def s5after : BookWriter.BWState :=
  ⟨0, 0, [⟨some 1, some "Uno", some "Res", some 1, some []⟩],
    [("Ana", ⟨some "detective", some "al inicio"⟩)], [],
    some "\n\n## Capítulo 1: Uno\n\nProsa limpia.\n"⟩

/-- Witness for C5 (amended) at a concrete input: the same completing page
with a character-update response that fails to parse (fail-soft path). -/
theorem c5_completion_transitions_amended_witness :
    s5.currentChapterIndex < s5.outline.length ∧
    (PageGenerator.generate env5ok.pageApiContent).1 = true ∧
    (((s5.currentPageInChapter + 1 : Nat) : Int) ≥
      (BookWriter.currentChapterInfo s5).pages_estimate.getD 10) ∧
    BookWriter.updateCharacterStates env5ok.charUpdateParsed
      (BookWriter.appendPageToBook (BookWriter.currentChapterInfo s5)
        (s5.currentPageInChapter + 1)
        (PageGenerator.generate env5ok.pageApiContent).2 s5) = .ok s5after ∧
    ((BookWriter.generatePage env5ok s5).2.currentChapterIndex =
        s5.currentChapterIndex + 1 ∧
      (BookWriter.generatePage env5ok s5).2.currentPageInChapter = 0) :=
  ⟨by decide, rfl, by decide, rfl,
    ⟨(c5_completion_transitions_amended env5ok (.ok ()) s5 s5after
        (by decide) rfl (by decide) rfl).2.1,
      (c5_completion_transitions_amended env5ok (.ok ()) s5 s5after
        (by decide) rfl (by decide) rfl).2.2.1⟩⟩

/-- The `AwaitingOutline` state: a fresh project with no outline. -/
def sNoOutline : BookWriter.BWState := ⟨0, 0, [], [], [], none⟩

/-- A `Completed` state: the cursor sits past the end of a one-chapter
outline. -/
def sDone : BookWriter.BWState :=
  ⟨1, 0, [⟨some 1, some "Uno", some "Res", some 1, some []⟩], [],
    [(1, "Uno", "Res")], some "texto previo"⟩

/-- A neutral call environment (never consulted on the short-circuit
paths). -/
def envNeutral : BookWriter.PageEnv := ⟨"Prosa limpia.", none, .ok ()⟩

/-- C7 counterexample: with no outline, `generate_page` short-circuits with
the status string `"✅ ¡Libro completado!"` — the very same string a
`Completed`-state call returns — so the "no outline" signal is NOT
distinguishable from the completed status, refuting that part of the claim
(the short-circuit, the empty page text and the absence of mutation do
hold). -/
theorem c7_no_outline_signal_counterexample :
    sNoOutline.outline = [] ∧
    sDone.outline ≠ [] ∧
    sDone.outline.length ≤ sDone.currentChapterIndex ∧
    BookWriter.generatePage envNeutral sNoOutline =
      (.ok "✅ ¡Libro completado!" "", sNoOutline) ∧
    BookWriter.generatePage envNeutral sDone =
      (.ok "✅ ¡Libro completado!" "", sDone) ∧
    (BookWriter.generatePage envNeutral sNoOutline).1 =
      (BookWriter.generatePage envNeutral sDone).1 :=
  ⟨rfl, by decide, by decide, rfl, rfl, rfl⟩

/-- C7 amended: when no outline exists, every `generate_page` call
short-circuits immediately, returning empty page text and leaving the entire
state (memory and manuscript) unmutated — but its status is the same
`"✅ ¡Libro completado!"` string the `Completed` state produces, not a
distinguishable "no outline" signal. -/
theorem c7_no_outline_short_circuit_amended (env : BookWriter.PageEnv)
    (s : BookWriter.BWState) (hempty : s.outline = []) :
    BookWriter.generatePage env s = (.ok "✅ ¡Libro completado!" "", s) := by
  unfold BookWriter.generatePage
  rw [if_pos (by rw [hempty]; simp)]

/-- Witness for C7 (amended) at a concrete input: the fresh no-outline
state. -/
theorem c7_no_outline_short_circuit_amended_witness :
    sNoOutline.outline = [] ∧
    BookWriter.generatePage envNeutral sNoOutline =
      (.ok "✅ ¡Libro completado!" "", sNoOutline) :=
  ⟨rfl, c7_no_outline_short_circuit_amended envNeutral sNoOutline rfl⟩

/-- Witness for C9 at a concrete input: one character whose proposed state is
a short string surrounded by whitespace is accepted verbatim after
stripping. -/
theorem c9_state_truncation_witness :
    ("Ana" : String) ∈ (["Ana"] : List String) ∧
    ([("Ana", JValue.jstr " abcdef ")].lookup "Ana" =
      some (JValue.jstr " abcdef ")) ∧
    ([("Ana", JValue.jstr " abcdef ")].lookup "character_updates" = none) ∧
    CharacterUpdater.updateAfterChapter
      (some (.jobj [("Ana", .jstr " abcdef ")])) ["Ana"] [("Ana", "old")] =
      .ok [("Ana", "abcdef")] ∧
    (6 ≤ (pyStrip " abcdef ").length ∧ (pyStrip " abcdef ").length ≤ 200 →
      ([("Ana", "abcdef")].lookup "Ana" = some (pyStrip " abcdef "))) :=
  ⟨by simp, rfl, rfl, rfl,
    (c9_state_truncation [("Ana", .jstr " abcdef ")] ["Ana"] [("Ana", "old")]
      "Ana" " abcdef " [("Ana", "abcdef")] (by simp) rfl rfl rfl).2.1⟩

/-! Lemmas for the outline-shape claim (C6). -/

/-- A positive number in the sense relevant to `pages_estimate` after
post-processing: a positive integer, or Python `True` (which equals 1). -/
def posNumJ : JValue → Bool
  | .jnum n => decide (0 < n)
  | .jbool b => b
  | _ => false

theorem lookup_isSome_of_any {β : Type} {l : List (String × β)} {k : String}
    (h : l.any (fun p => p.1 == k) = true) : (l.lookup k).isSome := by
  induction l with
  | nil => simp at h
  | cons p rest ih =>
    simp only [List.any_cons, Bool.or_eq_true] at h
    simp only [List.lookup]
    cases hk : (k == p.1) with
    | true => simp
    | false =>
      rcases h with h | h
      · have h1 := eq_of_beq h
        rw [h1] at hk
        simp at hk
      · exact ih h

theorem lookup_map_setEntry_ne (l : List (String × JValue)) (k : String)
    (v : JValue) (k2 : String) (hne : k2 ≠ k) :
    (l.map (fun p => if p.1 == k then (p.1, v) else p)).lookup k2 =
      l.lookup k2 := by
  induction l with
  | nil => rfl
  | cons p rest ih =>
    simp only [List.map_cons]
    by_cases hpk : (p.1 == k) = true
    · rw [if_pos hpk]
      have h1 := eq_of_beq hpk
      have hk2 : (k2 == p.1) = false := by
        cases hkk : (k2 == p.1) with
        | true =>
          have h2 := eq_of_beq hkk
          rw [h2, h1] at hne
          exact absurd rfl hne
        | false => rfl
      simp only [List.lookup, hk2]
      exact ih
    · rw [if_neg hpk]
      simp only [List.lookup]
      cases (k2 == p.1) with
      | true => rfl
      | false => exact ih

theorem lookup_map_setEntry_self (l : List (String × JValue)) (k : String)
    (v : JValue) (h : l.any (fun p => p.1 == k) = true) :
    (l.map (fun p => if p.1 == k then (p.1, v) else p)).lookup k = some v := by
  induction l with
  | nil => simp at h
  | cons p rest ih =>
    simp only [List.any_cons, Bool.or_eq_true] at h
    simp only [List.map_cons]
    by_cases hpk : (p.1 == k) = true
    · rw [if_pos hpk]
      have h1 := eq_of_beq hpk
      simp [List.lookup, h1]
    · rw [if_neg hpk]
      have hk : (k == p.1) = false := by
        cases hkk : (k == p.1) with
        | true =>
          have h2 := eq_of_beq hkk
          rw [h2] at hpk
          simp at hpk
        | false => rfl
      simp only [List.lookup, hk]
      rcases h with h | h
      · rw [h] at hpk; exact absurd rfl hpk
      · exact ih h

theorem lookup_append_single_ne (l : List (String × JValue)) (k : String)
    (v : JValue) (k2 : String) (hne : k2 ≠ k) :
    (l ++ [(k, v)]).lookup k2 = l.lookup k2 := by
  induction l with
  | nil =>
    have hk : (k2 == k) = false := by
      cases hkk : (k2 == k) with
      | true => exact absurd (eq_of_beq hkk) hne
      | false => rfl
    simp [List.lookup, hk]
  | cons p rest ih =>
    simp only [List.cons_append, List.lookup]
    cases (k2 == p.1) with
    | true => rfl
    | false => exact ih

theorem lookup_append_single_self (l : List (String × JValue)) (k : String)
    (v : JValue) (h : l.any (fun p => p.1 == k) = false) :
    (l ++ [(k, v)]).lookup k = some v := by
  induction l with
  | nil => simp [List.lookup]
  | cons p rest ih =>
    simp only [List.any_cons, Bool.or_eq_false_iff] at h
    have hk : (k == p.1) = false := by
      cases hkk : (k == p.1) with
      | true =>
        have h2 := eq_of_beq hkk
        rw [h2] at h
        simp at h
      | false => rfl
    simp only [List.cons_append, List.lookup, hk]
    exact ih h.2

theorem lookup_setField_self (l : List (String × JValue)) (k : String)
    (v : JValue) : (setField l k v).lookup k = some v := by
  unfold setField
  by_cases h : l.any (fun p => p.1 == k) = true
  · rw [if_pos h]
    exact lookup_map_setEntry_self l k v h
  · rw [if_neg h]
    exact lookup_append_single_self l k v (Bool.eq_false_iff.mpr h)

theorem lookup_setField_ne (l : List (String × JValue)) (k : String)
    (v : JValue) (k2 : String) (hne : k2 ≠ k) :
    (setField l k v).lookup k2 = l.lookup k2 := by
  unfold setField
  by_cases h : l.any (fun p => p.1 == k) = true
  · rw [if_pos h]
    exact lookup_map_setEntry_ne l k v k2 hne
  · rw [if_neg h]
    exact lookup_append_single_ne l k v k2 hne

theorem pyGetItem_ok_inv {v : JValue} {key : String} {w : JValue}
    (h : pyGetItem v key = .ok w) :
    ∃ fields, v = .jobj fields ∧ fields.lookup key = some w := by
  cases v with
  | jobj fields =>
    refine ⟨fields, rfl, ?_⟩
    cases hl : fields.lookup key with
    | some x =>
      have h2 : Except.ok (ε := PyErr) x = .ok w := by
        rw [← h]; simp [pyGetItem, hl]
      exact congrArg some (Except.ok.inj h2)
    | none =>
      have h2 : pyGetItem (JValue.jobj fields) key = .error .keyError := by
        simp [pyGetItem, hl]
      rw [h2] at h
      exact Except.noConfusion h
  | jnull => exact Except.noConfusion h
  | jbool b => exact Except.noConfusion h
  | jnum n => exact Except.noConfusion h
  | jstr s => exact Except.noConfusion h
  | jarr xs => exact Except.noConfusion h

theorem pySetItem_ok_inv {v : JValue} {key : String} {w d : JValue}
    (h : pySetItem v key w = .ok d) :
    ∃ fields, v = .jobj fields ∧ d = .jobj (setField fields key w) := by
  cases v with
  | jobj fields => exact ⟨fields, rfl, (Except.ok.inj h).symm⟩
  | jnull => exact Except.noConfusion h
  | jbool b => exact Except.noConfusion h
  | jnum n => exact Except.noConfusion h
  | jstr s => exact Except.noConfusion h
  | jarr xs => exact Except.noConfusion h

theorem mapExcept_ok_forall2 (f : JValue → Except PyErr JValue) :
    ∀ (l l2 : List JValue), OutlineGenerator.mapExcept f l = .ok l2 →
      List.Forall₂ (fun a b => f a = .ok b) l l2 := by
  intro l
  induction l with
  | nil =>
    intro l2 h
    unfold OutlineGenerator.mapExcept at h
    cases h
    exact List.Forall₂.nil
  | cons x rest ih =>
    intro l2 h
    unfold OutlineGenerator.mapExcept at h
    cases hf : f x with
    | error e => rw [hf, exbind_error] at h; exact Except.noConfusion h
    | ok y =>
      rw [hf, exbind_ok] at h
      cases hr : OutlineGenerator.mapExcept f rest with
      | error e => rw [hr, exbind_error] at h; exact Except.noConfusion h
      | ok ys =>
        rw [hr, exbind_ok] at h
        cases h
        exact List.Forall₂.cons hf (ih ys hr)

theorem postProcessCharacters_ok_inv :
    ∀ (cf cf2 : List (String × JValue)),
      OutlineGenerator.postProcessCharacters cf = .ok cf2 →
      cf2.length = cf.length ∧
      ∀ p ∈ cf2, ∀ f2, p.2 = JValue.jobj f2 →
        (f2.lookup "current_state").isSome := by
  intro cf
  induction cf with
  | nil =>
    intro cf2 h
    unfold OutlineGenerator.postProcessCharacters at h
    cases h
    exact ⟨rfl, by simp⟩
  | cons pc rest ih =>
    intro cf2 h
    obtain ⟨name, cd⟩ := pc
    unfold OutlineGenerator.postProcessCharacters at h
    cases hin : pyIn "current_state" cd with
    | error e => rw [hin, exbind_error] at h; exact Except.noConfusion h
    | ok present =>
      rw [hin, exbind_ok] at h
      cases present with
      | true =>
        rw [if_pos rfl] at h
        cases hr : OutlineGenerator.postProcessCharacters rest with
        | error e => rw [hr, exbind_error] at h; exact Except.noConfusion h
        | ok rest2 =>
          rw [hr, exbind_ok] at h
          cases h
          obtain ⟨hlen, hprop⟩ := ih rest2 hr
          refine ⟨by simp [hlen], ?_⟩
          intro p hp f2 hf2
          rcases List.mem_cons.mp hp with heq | hmem
          · subst heq
            simp only at hf2
            rw [hf2] at hin
            have hany : f2.any (fun q => q.1 == "current_state") = true := by
              have hred : pyIn "current_state" (JValue.jobj f2) =
                  .ok (f2.any (fun q => q.1 == "current_state")) := rfl
              rw [hred] at hin
              exact Except.ok.inj hin
            exact lookup_isSome_of_any hany
          · exact hprop p hmem f2 hf2
      | false =>
        rw [if_neg (by simp)] at h
        cases hset : pySetItem cd "current_state"
            (.jstr "Al inicio de la historia.") with
        | error e => rw [hset, exbind_error] at h; exact Except.noConfusion h
        | ok cd2 =>
          rw [hset, exbind_ok] at h
          cases hr : OutlineGenerator.postProcessCharacters rest with
          | error e => rw [hr, exbind_error] at h; exact Except.noConfusion h
          | ok rest2 =>
            rw [hr, exbind_ok] at h
            cases h
            obtain ⟨hlen, hprop⟩ := ih rest2 hr
            refine ⟨by simp [hlen], ?_⟩
            intro p hp f2 hf2
            rcases List.mem_cons.mp hp with heq | hmem
            · subst heq
              simp only at hf2
              obtain ⟨f0, _, hcd2⟩ := pySetItem_ok_inv hset
              rw [hcd2] at hf2
              cases hf2
              rw [lookup_setField_self]
              rfl
            · exact hprop p hmem f2 hf2

theorem pagesEstimateFix_ok_inv (f : List (String × JValue)) (ch2 : JValue)
    (h : OutlineGenerator.pagesEstimateFix (.jobj f) = .ok ch2) :
    ∃ f2, ch2 = .jobj f2 ∧
      (∃ pv, f2.lookup "pages_estimate" = some pv ∧ posNumJ pv = true) ∧
      ∀ k, k ≠ "pages_estimate" → f2.lookup k = f.lookup k := by
  unfold OutlineGenerator.pagesEstimateFix at h
  have hinr : pyIn "pages_estimate" (JValue.jobj f) =
      .ok (f.any (fun p => p.1 == "pages_estimate")) := rfl
  rw [hinr, exbind_ok] at h
  by_cases hany : f.any (fun p => p.1 == "pages_estimate") = true
  · rw [hany] at h
    simp only [Bool.not_true, Bool.false_eq_true, if_false] at h
    obtain ⟨pv, hpv⟩ : ∃ pv, f.lookup "pages_estimate" = some pv :=
      Option.isSome_iff_exists.mp (lookup_isSome_of_any hany)
    have hget : pyGetItem (JValue.jobj f) "pages_estimate" = .ok pv := by
      simp [pyGetItem, hpv]
    rw [hget, exbind_ok] at h
    cases hle : pyLeZero pv with
    | error e => rw [hle, exbind_error] at h; exact Except.noConfusion h
    | ok le0 =>
      rw [hle, exbind_ok] at h
      cases le0 with
      | true =>
        rw [if_pos rfl] at h
        obtain ⟨f0, hf0, hch2⟩ := pySetItem_ok_inv h
        cases hf0
        refine ⟨setField f "pages_estimate" (.jnum 12), hch2,
          ⟨.jnum 12, lookup_setField_self f "pages_estimate" (.jnum 12), rfl⟩,
          fun k hk => lookup_setField_ne f "pages_estimate" (.jnum 12) k hk⟩
      | false =>
        rw [if_neg (by simp), expure] at h
        have hch2 := (Except.ok.inj h).symm
        subst hch2
        refine ⟨f, rfl, ⟨pv, hpv, ?_⟩, fun k _ => rfl⟩
        cases pv with
        | jnum n =>
          have := Except.ok.inj hle
          simp only [posNumJ]
          simp only [pyLeZero] at this
          simp at this ⊢
          omega
        | jbool b =>
          have := Except.ok.inj hle
          simp only [pyLeZero] at this
          simp only [posNumJ]
          simp at this
          exact this
        | jnull => exact Except.noConfusion hle
        | jstr s => exact Except.noConfusion hle
        | jarr xs => exact Except.noConfusion hle
        | jobj fs => exact Except.noConfusion hle
  · have hanyf : f.any (fun p => p.1 == "pages_estimate") = false :=
      Bool.eq_false_iff.mpr hany
    rw [hanyf] at h
    simp only [Bool.not_false, if_true] at h
    obtain ⟨f0, hf0, hch2⟩ := pySetItem_ok_inv h
    cases hf0
    exact ⟨setField f "pages_estimate" (.jnum 12), hch2,
      ⟨.jnum 12, lookup_setField_self f "pages_estimate" (.jnum 12), rfl⟩,
      fun k hk => lookup_setField_ne f "pages_estimate" (.jnum 12) k hk⟩

theorem characterFocusFix_ok_inv (f : List (String × JValue)) (ch2 : JValue)
    (h : OutlineGenerator.characterFocusFix (.jobj f) = .ok ch2) :
    ∃ f2, ch2 = .jobj f2 ∧ (f2.lookup "character_focus").isSome ∧
      ∀ k, k ≠ "character_focus" → f2.lookup k = f.lookup k := by
  unfold OutlineGenerator.characterFocusFix at h
  have hinr : pyIn "character_focus" (JValue.jobj f) =
      .ok (f.any (fun p => p.1 == "character_focus")) := rfl
  rw [hinr, exbind_ok] at h
  by_cases hany : f.any (fun p => p.1 == "character_focus") = true
  · rw [hany, if_pos rfl, expure] at h
    have hch2 := (Except.ok.inj h).symm
    subst hch2
    exact ⟨f, rfl, lookup_isSome_of_any hany, fun k _ => rfl⟩
  · have hanyf : f.any (fun p => p.1 == "character_focus") = false :=
      Bool.eq_false_iff.mpr hany
    rw [hanyf, if_neg (by simp)] at h
    obtain ⟨f0, hf0, hch2⟩ := pySetItem_ok_inv h
    cases hf0
    refine ⟨setField f "character_focus" (.jarr []), hch2, ?_,
      fun k hk => lookup_setField_ne f "character_focus" (.jarr []) k hk⟩
    rw [lookup_setField_self]
    rfl

theorem checkChapters_true_inv :
    ∀ (l : List JValue) (i : Nat) (m : String),
      OutlineGenerator.checkChapters l i = (true, m) →
      ∀ j (hj : j < l.length), ∃ chF,
        l.get ⟨j, hj⟩ = .jobj chF ∧
        pyEqInt ((chF.lookup "number").getD .jnull)
          (((i + j : Nat) : Int) + 1) = true ∧
        (∃ evs, chF.lookup "key_events" = some (.jarr evs) ∧ evs ≠ []) ∧
        (chF.lookup "pages_estimate").isSome := by
  intro l
  induction l with
  | nil =>
    intro i m h j hj
    exact absurd hj (by simp)
  | cons ch rest ih =>
    intro i m h j hj
    cases ch with
    | jobj fields =>
      unfold OutlineGenerator.checkChapters at h
      dsimp only at h
      cases hfind : ["number", "title", "summary", "key_events",
          "pages_estimate"].find? (fun k => !(fields.any (fun p => p.1 == k))) with
      | some k =>
        rw [hfind] at h
        simp at h
      | none =>
        rw [hfind] at h
        by_cases hnum :
            (!(pyEqInt ((fields.lookup "number").getD .jnull) ((i : Int) + 1)))
              = true
        · rw [if_pos hnum] at h
          simp at h
        · rw [if_neg hnum] at h
          cases hgd : (fields.lookup "key_events").getD .jnull with
          | jarr evs =>
            rw [hgd] at h
            by_cases hev : evs.isEmpty = true
            · simp [hev] at h
            · have hrest : OutlineGenerator.checkChapters rest (i + 1) =
                  (true, m) := by
                simpa [hev] using h
              have hnumt : pyEqInt ((fields.lookup "number").getD .jnull)
                  ((i : Int) + 1) = true := by
                cases hpe : pyEqInt ((fields.lookup "number").getD .jnull)
                    ((i : Int) + 1) with
                | true => rfl
                | false => rw [hpe] at hnum; simp at hnum
              cases j with
              | zero =>
                refine ⟨fields, rfl, by simpa using hnumt, ?_, ?_⟩
                · cases hlk : fields.lookup "key_events" with
                  | none =>
                    rw [hlk] at hgd
                    exact absurd hgd (by simp)
                  | some v =>
                    rw [hlk] at hgd
                    simp only [Option.getD_some] at hgd
                    subst hgd
                    exact ⟨evs, rfl, by simpa using hev⟩
                · have hall := List.find?_eq_none.mp hfind "pages_estimate"
                    (by simp)
                  have hany : fields.any (fun p => p.1 == "pages_estimate")
                      = true := by
                    cases hva : fields.any (fun p => p.1 == "pages_estimate") with
                    | true => rfl
                    | false => exact absurd (by simp [hva]) hall
                  exact lookup_isSome_of_any hany
              | succ j2 =>
                obtain ⟨chF, hget, hnum2, hke2, hpe2⟩ :=
                  ih (i + 1) m hrest j2 (by simpa using hj)
                refine ⟨chF, by simpa using hget, ?_, hke2, hpe2⟩
                have harith : ((i + 1 + j2 : Nat) : Int) =
                    ((i + (j2 + 1) : Nat) : Int) := by
                  congr 1
                  omega
                rw [harith] at hnum2
                exact hnum2
          | jnull => rw [hgd] at h; simp at h
          | jbool b => rw [hgd] at h; simp at h
          | jnum n => rw [hgd] at h; simp at h
          | jstr s => rw [hgd] at h; simp at h
          | jobj fs => rw [hgd] at h; simp at h
    | jnull => simp [OutlineGenerator.checkChapters] at h
    | jbool b => simp [OutlineGenerator.checkChapters] at h
    | jnum n => simp [OutlineGenerator.checkChapters] at h
    | jstr s => simp [OutlineGenerator.checkChapters] at h
    | jarr xs => simp [OutlineGenerator.checkChapters] at h

theorem validateOutline_ok_true_inv (data : JValue) (num : Int) (m : String)
    (h : OutlineGenerator.validateOutline data num = .ok (true, m)) :
    ∃ df cf pf outl,
      data = .jobj df ∧
      df.lookup "characters" = some (.jobj cf) ∧ cf ≠ [] ∧
      df.lookup "plot" = some (.jobj pf) ∧
      pf.lookup "outline" = some (.jarr outl) ∧
      (outl.length : Int) = num ∧
      OutlineGenerator.checkChapters outl 0 = (true, m) := by
  unfold OutlineGenerator.validateOutline at h
  cases hcs : OutlineGenerator.checkSections data
      ["world", "characters", "plot", "style", "consistency_rules"] with
  | error e => rw [hcs, exbind_error] at h; exact Except.noConfusion h
  | ok osec =>
    rw [hcs, exbind_ok] at h
    cases osec with
    | some sec => simp at h
    | none =>
      dsimp only at h
      cases hw : pyGetItem data "world" with
      | error e => rw [hw, exbind_error] at h; exact Except.noConfusion h
      | ok world =>
        rw [hw, exbind_ok] at h
        cases world with
        | jobj wf =>
          dsimp only at h
          cases hcs2 : OutlineGenerator.checkSections (.jobj wf)
              ["setting", "time_period"] with
          | error e => rw [hcs2, exbind_error] at h; exact Except.noConfusion h
          | ok osec2 =>
            rw [hcs2, exbind_ok] at h
            cases osec2 with
            | some k => simp at h
            | none =>
              dsimp only at h
              cases hc : pyGetItem data "characters" with
              | error e => rw [hc, exbind_error] at h; exact Except.noConfusion h
              | ok chars =>
                rw [hc, exbind_ok] at h
                cases chars with
                | jobj cf =>
                  dsimp only at h
                  by_cases hce : cf.isEmpty = true
                  · simp [hce] at h
                  · have hcef : cf.isEmpty = false := Bool.eq_false_iff.mpr hce
                    simp only [hcef, Bool.false_eq_true, if_false] at h
                    cases hp : pyGetItem data "plot" with
                    | error e =>
                      rw [hp, exbind_error] at h
                      exact Except.noConfusion h
                    | ok plot =>
                      rw [hp, exbind_ok] at h
                      cases hin : pyIn "outline" plot with
                      | error e =>
                        rw [hin, exbind_error] at h
                        exact Except.noConfusion h
                      | ok hasOutl =>
                        rw [hin, exbind_ok] at h
                        cases hasOutl with
                        | false => simp at h
                        | true =>
                          simp only [Bool.not_true, Bool.false_eq_true,
                            if_false] at h
                          cases ho : pyGetItem plot "outline" with
                          | error e =>
                            rw [ho, exbind_error] at h
                            exact Except.noConfusion h
                          | ok outv =>
                            rw [ho, exbind_ok] at h
                            cases outv with
                            | jarr outl =>
                              dsimp only at h
                              by_cases hlen :
                                  ((outl.length : Int) != num) = true
                              · simp [hlen] at h
                              · have hlenf : ((outl.length : Int) != num)
                                    = false := Bool.eq_false_iff.mpr hlen
                                simp only [hlenf, Bool.false_eq_true,
                                  if_false] at h
                                have hcheck :
                                    OutlineGenerator.checkChapters outl 0 =
                                      (true, m) := Except.ok.inj h
                                obtain ⟨df, hdata, hdfw⟩ := pyGetItem_ok_inv hw
                                obtain ⟨df2, hdata2, hdfc⟩ := pyGetItem_ok_inv hc
                                obtain ⟨df3, hdata3, hdfp⟩ := pyGetItem_ok_inv hp
                                obtain ⟨pf, hplot, hpfo⟩ := pyGetItem_ok_inv ho
                                rw [hdata] at hdata2 hdata3
                                have hdf2 := JValue.jobj.inj hdata2
                                have hdf3 := JValue.jobj.inj hdata3
                                subst hdf2
                                subst hdf3
                                refine ⟨df, cf, pf, outl, hdata, hdfc, ?_,
                                  ?_, hpfo, ?_, hcheck⟩
                                · intro hnil
                                  rw [hnil] at hcef
                                  simp at hcef
                                · rw [← hplot]
                                  exact hdfp
                                · have := bne_eq_false_iff_eq.mp hlenf
                                  exact this
                            | jnull => simp at h
                            | jbool b => simp at h
                            | jnum n => simp at h
                            | jstr s => simp at h
                            | jobj fs => simp at h
                | jnull => simp at h
                | jbool b => simp at h
                | jnum n => simp at h
                | jstr s => simp at h
                | jarr xs => simp at h
        | jnull => simp at h
        | jbool b => simp at h
        | jnum n => simp at h
        | jstr s => simp at h
        | jarr xs => simp at h

theorem ensureKey_jobj_inv (f : List (String × JValue)) (key : String)
    (dflt v2 : JValue) (h : OutlineGenerator.ensureKey (.jobj f) key dflt = .ok v2) :
    ∃ f2, v2 = .jobj f2 ∧ ∀ k, k ≠ key → f2.lookup k = f.lookup k := by
  unfold OutlineGenerator.ensureKey at h
  have hinr : pyIn key (JValue.jobj f) =
      .ok (f.any (fun p => p.1 == key)) := rfl
  rw [hinr, exbind_ok] at h
  by_cases hany : f.any (fun p => p.1 == key) = true
  · rw [hany, if_pos rfl, expure] at h
    have h2 := (Except.ok.inj h).symm
    subst h2
    exact ⟨f, rfl, fun k _ => rfl⟩
  · have hanyf : f.any (fun p => p.1 == key) = false := Bool.eq_false_iff.mpr hany
    rw [hanyf, if_neg (by simp)] at h
    obtain ⟨f0, hf0, hv2⟩ := pySetItem_ok_inv h
    cases hf0
    exact ⟨setField f key dflt, hv2,
      fun k hk => lookup_setField_ne f key dflt k hk⟩

theorem forall2_trans {R S T : JValue → JValue → Prop}
    (hRS : ∀ a b c, R a b → S b c → T a c) :
    ∀ {l1 l2 l3 : List JValue},
      List.Forall₂ R l1 l2 → List.Forall₂ S l2 l3 → List.Forall₂ T l1 l3 := by
  intro l1 l2 l3 h1
  induction h1 generalizing l3 with
  | nil =>
    intro h2
    cases h2
    exact List.Forall₂.nil
  | cons hab h1x ih =>
    intro h2
    cases h2 with
    | cons hbc h2x => exact List.Forall₂.cons (hRS _ _ _ hab hbc) (ih h2x)

/-- The per-chapter effect of the two post-processing passes on a chapter
dict: `number` and `key_events` are untouched, `pages_estimate` ends up a
positive number, and `character_focus` ends up present. -/
def chapterFixed (a b : JValue) : Prop :=
  ∀ f, a = JValue.jobj f → ∃ f2, b = JValue.jobj f2 ∧
    f2.lookup "number" = f.lookup "number" ∧
    f2.lookup "key_events" = f.lookup "key_events" ∧
    (∃ pv, f2.lookup "pages_estimate" = some pv ∧ posNumJ pv = true) ∧
    (f2.lookup "character_focus").isSome

theorem postProcessOutline_ok_shape (df cf pf : List (String × JValue))
    (outl : List JValue) (d : JValue)
    (hchars : df.lookup "characters" = some (.jobj cf))
    (hplot : df.lookup "plot" = some (.jobj pf))
    (houtl : pf.lookup "outline" = some (.jarr outl))
    (hok : OutlineGenerator.postProcessOutline (.jobj df) = .ok d) :
    ∃ cf2 outl2 pf3,
      pyGetItem d "characters" = .ok (.jobj cf2) ∧
      cf2.length = cf.length ∧
      (∀ p ∈ cf2, ∀ f2, p.2 = JValue.jobj f2 →
        (f2.lookup "current_state").isSome) ∧
      pyGetItem d "plot" = .ok (.jobj pf3) ∧
      pf3.lookup "outline" = some (.jarr outl2) ∧
      List.Forall₂ chapterFixed outl outl2 := by
  unfold OutlineGenerator.postProcessOutline at hok
  have hgetc : pyGetItem (.jobj df) "characters" = .ok (.jobj cf) := by
    simp [pyGetItem, hchars]
  rw [hgetc, exbind_ok] at hok
  dsimp only at hok
  cases hpc : OutlineGenerator.postProcessCharacters cf with
  | error e => rw [hpc, exbind_error] at hok; exact Except.noConfusion hok
  | ok cf2 =>
    rw [hpc, exbind_ok] at hok
    have hset1 : pySetItem (.jobj df) "characters" (.jobj cf2) =
        .ok (.jobj (setField df "characters" (.jobj cf2))) := rfl
    rw [hset1, exbind_ok] at hok
    have hgetp : pyGetItem (.jobj (setField df "characters" (.jobj cf2)))
        "plot" = .ok (.jobj pf) := by
      simp [pyGetItem,
        lookup_setField_ne df "characters" (.jobj cf2) "plot" (by decide),
        hplot]
    rw [hgetp, exbind_ok] at hok
    have hgeto : pyGetItem (.jobj pf) "outline" = .ok (.jarr outl) := by
      simp [pyGetItem, houtl]
    rw [hgeto, exbind_ok] at hok
    dsimp only at hok
    cases hm1 : OutlineGenerator.mapExcept OutlineGenerator.pagesEstimateFix
        outl with
    | error e => rw [hm1, exbind_error] at hok; exact Except.noConfusion hok
    | ok chs1 =>
      rw [hm1, exbind_ok] at hok
      cases hm2 : OutlineGenerator.mapExcept
          OutlineGenerator.characterFocusFix chs1 with
      | error e => rw [hm2, exbind_error] at hok; exact Except.noConfusion hok
      | ok chs2 =>
        rw [hm2, exbind_ok] at hok
        have hset2 : pySetItem (.jobj pf) "outline" (.jarr chs2) =
            .ok (.jobj (setField pf "outline" (.jarr chs2))) := rfl
        rw [hset2, exbind_ok] at hok
        cases he1 : OutlineGenerator.ensureKey
            (.jobj (setField pf "outline" (.jarr chs2)))
            "premise" (.jstr "") with
        | error e => rw [he1, exbind_error] at hok; exact Except.noConfusion hok
        | ok plot2 =>
          rw [he1, exbind_ok] at hok
          obtain ⟨pf2, hplot2, hpf2⟩ := ensureKey_jobj_inv _ _ _ _ he1
          subst hplot2
          cases he2 : OutlineGenerator.ensureKey (.jobj pf2) "themes"
              (.jarr []) with
          | error e => rw [he2, exbind_error] at hok; exact Except.noConfusion hok
          | ok plot3 =>
            rw [he2, exbind_ok] at hok
            obtain ⟨pf3, hplot3, hpf3⟩ := ensureKey_jobj_inv _ _ _ _ he2
            subst hplot3
            have hsetd : pySetItem (.jobj (setField df "characters" (.jobj cf2)))
                "plot" (.jobj pf3) =
                .ok (.jobj (setField (setField df "characters" (.jobj cf2))
                  "plot" (.jobj pf3))) := rfl
            rw [hsetd] at hok
            have hd := (Except.ok.inj hok).symm
            subst hd
            obtain ⟨hlen, hcs⟩ := postProcessCharacters_ok_inv cf cf2 hpc
            have hfix : List.Forall₂ chapterFixed outl chs2 := by
              refine forall2_trans ?_
                (mapExcept_ok_forall2 OutlineGenerator.pagesEstimateFix outl
                  chs1 hm1)
                (mapExcept_ok_forall2 OutlineGenerator.characterFocusFix chs1
                  chs2 hm2)
              intro a b c hab hbc
              intro f haf
              subst haf
              obtain ⟨f1, hbf1, hpages1, hpres1⟩ := pagesEstimateFix_ok_inv f b hab
              subst hbf1
              obtain ⟨f2, hcf2, hfocus2, hpres2⟩ := characterFocusFix_ok_inv f1 c hbc
              subst hcf2
              refine ⟨f2, rfl, ?_, ?_, ?_, hfocus2⟩
              · rw [hpres2 "number" (by decide), hpres1 "number" (by decide)]
              · rw [hpres2 "key_events" (by decide),
                  hpres1 "key_events" (by decide)]
              · obtain ⟨pv, hpv, hpos⟩ := hpages1
                exact ⟨pv, by rw [hpres2 "pages_estimate" (by decide)]; exact hpv,
                  hpos⟩
            refine ⟨cf2, chs2, pf3, ?_, hlen, hcs, ?_, ?_, hfix⟩
            · simp [pyGetItem,
                lookup_setField_ne (setField df "characters" (.jobj cf2))
                  "plot" (.jobj pf3) "characters" (by decide),
                lookup_setField_self df "characters" (.jobj cf2)]
            · simp [pyGetItem,
                lookup_setField_self (setField df "characters" (.jobj cf2))
                  "plot" (.jobj pf3)]
            · rw [hpf3 "outline" (by decide), hpf2 "outline" (by decide),
                lookup_setField_self pf "outline" (.jarr chs2)]

theorem generate_ok_success_inv (parsed : Option JValue) (raw : String)
    (num : Int) (d : JValue) (m : String)
    (hok : OutlineGenerator.generate parsed raw num =
      .ok (.successResult d m)) :
    ∃ data m2, parsed = some data ∧
      OutlineGenerator.validateOutline data num = .ok (true, m2) ∧
      OutlineGenerator.postProcessOutline data = .ok d := by
  cases parsed with
  | none =>
    unfold OutlineGenerator.generate at hok
    have := Except.ok.inj hok
    exact OutlineGenerator.GenResult.noConfusion this
  | some data =>
    unfold OutlineGenerator.generate at hok
    dsimp only at hok
    cases hv : OutlineGenerator.validateOutline data num with
    | error e => rw [hv, exbind_error] at hok; exact Except.noConfusion hok
    | ok pr =>
      obtain ⟨valid, m2⟩ := pr
      rw [hv, exbind_ok] at hok
      cases valid with
      | false =>
        simp only [Bool.not_false, if_true] at hok
        have := Except.ok.inj hok
        exact OutlineGenerator.GenResult.noConfusion this
      | true =>
        simp only [Bool.not_true, Bool.false_eq_true, if_false] at hok
        cases hp : OutlineGenerator.postProcessOutline data with
        | error e => rw [hp, exbind_error] at hok; exact Except.noConfusion hok
        | ok d2 =>
          rw [hp, exbind_ok] at hok
          have hinj := Except.ok.inj hok
          injection hinj with hd hm
          exact ⟨data, m2, rfl, hv, by rw [hp, hd]⟩

/-- C6 amended: every `OutlineGenerator.generate` call either raises a Python
exception (possible when the parsed response carries unexpectedly-typed
fields), or returns an error result, or returns a success result whose
`plot.outline` has exactly `num_chapters` entries with `number == i+1` for
every index, each carrying a non-empty `key_events` list, a positive numeric
`pages_estimate` (non-positive values replaced by 12) and a
`character_focus` entry (defaulted to the empty list), and in which every
character entry that is an object has a `current_state` entry (stamped to
the initial-state string when the model omitted it) — but a model-supplied
`current_state` of any type, not only a string, is kept verbatim (see the
counterexample). -/
theorem c6_outline_shape_amended (parsed : Option JValue) (raw : String)
    (num : Int) :
    (∃ e, OutlineGenerator.generate parsed raw num = .error e) ∨
    (∃ m, OutlineGenerator.generate parsed raw num = .ok (.errorResult m)) ∨
    (∃ d m, OutlineGenerator.generate parsed raw num =
        .ok (.successResult d m) ∧
      ∃ pf3 outl2 cf2,
        pyGetItem d "plot" = .ok (.jobj pf3) ∧
        pf3.lookup "outline" = some (.jarr outl2) ∧
        (outl2.length : Int) = num ∧
        (∀ j (hj : j < outl2.length), ∃ chF,
          outl2.get ⟨j, hj⟩ = .jobj chF ∧
          pyEqInt ((chF.lookup "number").getD .jnull) ((j : Int) + 1) = true ∧
          (∃ evs, chF.lookup "key_events" = some (.jarr evs) ∧ evs ≠ []) ∧
          (∃ pv, chF.lookup "pages_estimate" = some pv ∧ posNumJ pv = true) ∧
          (chF.lookup "character_focus").isSome) ∧
        pyGetItem d "characters" = .ok (.jobj cf2) ∧
        cf2 ≠ [] ∧
        (∀ p ∈ cf2, ∀ f2, p.2 = JValue.jobj f2 →
          (f2.lookup "current_state").isSome)) := by
  cases hg : OutlineGenerator.generate parsed raw num with
  | error e => exact .inl ⟨e, rfl⟩
  | ok r =>
    cases r with
    | errorResult m => exact .inr (.inl ⟨m, rfl⟩)
    | successResult d m =>
      refine .inr (.inr ⟨d, m, rfl, ?_⟩)
      obtain ⟨data, m2, hpars, hval, hpost⟩ :=
        generate_ok_success_inv parsed raw num d m hg
      obtain ⟨df, cf, pf, outl, hdata, hchars, hcfne, hplot, houtl, hlen,
        hcheck⟩ := validateOutline_ok_true_inv data num m2 hval
      subst hdata
      obtain ⟨cf2, outl2, pf3, hgc, hclen, hcs, hgp, hpo, hfix⟩ :=
        postProcessOutline_ok_shape df cf pf outl d hchars hplot houtl hpost
      have hlen2 : outl.length = outl2.length := hfix.length_eq
      refine ⟨pf3, outl2, cf2, hgp, hpo, by rw [← hlen2]; exact hlen, ?_,
        hgc, ?_, hcs⟩
      · intro j hj
        have hj1 : j < outl.length := by omega
        obtain ⟨chF, hget, hnum, hke, _⟩ :=
          checkChapters_true_inv outl 0 m2 hcheck j hj1
        have hrel := (List.forall₂_iff_get.mp hfix).2 j hj1 hj
        rw [hget] at hrel
        obtain ⟨f2, hb, hnum2, hke2, hpages2, hfocus2⟩ := hrel chF rfl
        refine ⟨f2, hb, ?_, ?_, hpages2, hfocus2⟩
        · rw [hnum2]
          simpa using hnum
        · rw [hke2]
          exact hke
      · intro hnil
        rw [hnil] at hclen
        cases cf with
        | nil => exact hcfne rfl
        | cons a l => simp at hclen

/-- A concrete well-formed parsed outline response whose single character
carries `current_state: 42` — a number, not a string. -/
def c6Json : JValue := .jobj [
  ("world", .jobj [("setting", .jstr "Mar"), ("time_period", .jstr "1900")]),
  ("characters", .jobj [("X", .jobj [("description", .jstr "d"),
    ("current_state", .jnum 42)])]),
  ("plot", .jobj [
    ("outline", .jarr [.jobj [
      ("number", .jnum 1), ("title", .jstr "Uno"), ("summary", .jstr "s"),
      ("key_events", .jarr [.jstr "e1"]), ("pages_estimate", .jnum 12),
      ("character_focus", .jarr [.jstr "X"])]]),
    ("premise", .jstr "p"), ("themes", .jarr [])]),
  ("style", .jobj []),
  ("consistency_rules", .jarr [])]

/-- C6 counterexample: a structurally valid response whose character `X`
carries `current_state: 42` passes validation and post-processing unchanged,
so `generate` returns success with a `current_state` that is a number — not a
string — refuting the claim that on success "every character has a
current_state string". -/
theorem c6_current_state_counterexample :
    OutlineGenerator.generate (some c6Json) "" 1 =
      .ok (.successResult c6Json
        "✅ Outline, mundo y personajes generados con éxito.") ∧
    (do
      let chars ← pyGetItem c6Json "characters"
      let x ← pyGetItem chars "X"
      pyGetItem x "current_state") = .ok (.jnum 42) ∧
    ∀ str : String, JValue.jnum 42 ≠ JValue.jstr str := by
  refine ⟨rfl, rfl, ?_⟩
  intro str h
  exact JValue.noConfusion h
